import Mathlib

/-!
Verification development for the knot repository's zone semantic-check
engine (src/knot/zone/semantic-check.c) and DoQ client transport
(src/utils/common/quic.c).

The C code is shallowly embedded: rdata buffers are lists of byte values
(Nat), machine integers are Nat/Int with explicit modular arithmetic where
overflow matters, and calls into external libraries (libdnssec, libknot
zone lookups, ngtcp2, the socket layer) are parameters of the embedding,
so every theorem quantifies over (or concretely instantiates) the
behaviour of those collaborators.  Definitions come first, then the
theorems settling the specification claims.
-/

namespace Knot

/-! ## Error-code constants.

Values follow libknot/errcode.h and libdnssec (headers outside the
excerpted sources).  The proofs only rely on the codes being the fixed,
pairwise distinct integers below, with KNOT_EOK = 0. -/

def KNOT_EOK : Int := 0

def KNOT_EINVAL : Int := -22

def KNOT_ENOMEM : Int := -12

def KNOT_EBUSY : Int := -16

def KNOT_ENOTSUP : Int := -95

def KNOT_ERROR : Int := -1000

def KNOT_ESEMCHECK : Int := -1001

def KNOT_EEMPTYZONE : Int := -1002

def KNOT_EOUTOFZONE : Int := -1003

def KNOT_NET_ECONNECT : Int := -1010

def KNOT_NET_ESEND : Int := -1011

def KNOT_NET_ERECV : Int := -1012

def KNOT_NET_ETIMEOUT : Int := -1013

def KNOT_DNSSEC_ENOSIG : Int := -1100

def KNOT_DNSSEC_ENSEC_BITMAP : Int := -1101

def KNOT_DNSSEC_ENSEC_CHAIN : Int := -1102

def KNOT_DNSSEC_ENSEC3_OPTOUT : Int := -1103

def KNOT_INVALID_PUBLIC_KEY : Int := -1104

/-! ## Semantic checker: data model.

A zone is a tree of nodes; we embed it as the apex node plus the list of
remaining nodes in traversal order (zone_contents_apply visits every
node; the traversal order is irrelevant to the per-node checks).  An
rdata is the record's wire bytes; an rrset is the list of rdatas of one
type; a node stores its rrsets keyed by the numeric RR type.  Owner
names are wire-format byte strings.  Pointer identity of nodes in the C
code (data->zone->apex == node) is embedded as structural equality,
which coincides with it because a zone tree holds one node per owner. -/

abbrev Rd := List Nat

deriving instance DecidableEq for Except

structure ZNode where
  owner : Rd
  flagsDeleg : Bool
  flagsNonauth : Bool
  flagsApex : Bool
  children : Nat
  hasNsec3 : Bool
  rrsets : List (Nat × List Rd)
  deriving DecidableEq

structure Zone where
  apex : ZNode
  rest : List ZNode
  dnssec : Bool
  deriving DecidableEq

/-- RR type numbers used by the checker (libknot/consts). -/
def RR_A : Nat := 1

def RR_NS : Nat := 2

def RR_CNAME : Nat := 5

def RR_SOA : Nat := 6

def RR_AAAA : Nat := 28

def RR_DNAME : Nat := 39

def RR_DS : Nat := 43

def RR_RRSIG : Nat := 46

def RR_NSEC : Nat := 47

def RR_DNSKEY : Nat := 48

def RR_NSEC3PARAM : Nat := 51

def RR_CDS : Nat := 59

def RR_CDNSKEY : Nat := 60

/-- node_rdataset: the node's rrset of the given type, or none. -/
def node_rdataset (node : ZNode) (t : Nat) : Option (List Rd) :=
  match node.rrsets.find? (fun p => p.1 == t) with
  | some p => some p.2
  | none => none

/-- node_rrtype_exists. -/
def node_rrtype_exists (node : ZNode) (t : Nat) : Bool :=
  (node_rdataset node t).isSome

/-- The C node->rrset_count field: number of rrsets at the node. -/
def rrset_count (node : ZNode) : Nat := node.rrsets.length

/-- Semantic error taxonomy (sem_error_t), the closed enumeration from
semantic-check.h / the error_messages table. -/
inductive SemError where
  | SOA_NONE
  | CNAME_EXTRA_RECORDS
  | CNAME_MULTIPLE
  | DNAME_CHILDREN
  | DNAME_MULTIPLE
  | DNAME_EXTRA_NS
  | NS_APEX
  | NS_GLUE
  | RRSIG_RDATA_TYPE_COVERED
  | RRSIG_RDATA_TTL
  | RRSIG_RDATA_EXPIRATION
  | RRSIG_RDATA_INCEPTION
  | RRSIG_RDATA_LABELS
  | RRSIG_RDATA_OWNER
  | RRSIG_NO_RRSIG
  | RRSIG_SIGNED
  | RRSIG_UNVERIFIABLE
  | NSEC_NONE
  | NSEC_RDATA_BITMAP
  | NSEC_RDATA_MULTIPLE
  | NSEC_RDATA_CHAIN
  | NSEC3_NONE
  | NSEC3_INSECURE_DELEGATION_OPT
  | NSEC3_EXTRA_RECORD
  | NSEC3_RDATA_TTL
  | NSEC3_RDATA_CHAIN
  | NSEC3_RDATA_BITMAP
  | NSEC3_RDATA_FLAGS
  | NSEC3_RDATA_SALT
  | NSEC3_RDATA_ALG
  | NSEC3_RDATA_ITERS
  | NSEC3PARAM_RDATA_FLAGS
  | NSEC3PARAM_RDATA_ALG
  | DS_RDATA_ALG
  | DS_RDATA_DIGLEN
  | DNSKEY_NONE
  | DNSKEY_INVALID
  | DNSKEY_RDATA_PROTOCOL
  | CDS_NONE
  | CDS_NOT_MATCH
  | CDNSKEY_NONE
  | CDNSKEY_NO_DNSKEY
  | CDNSKEY_NO_CDS
  | CDNSKEY_INVALID_DELETE
  | UNKNOWN
  deriving DecidableEq

/-- One handler callback invocation: (owner, error code, optional info). -/
structure Emission where
  owner : Rd
  code : SemError
  info : Option String
  deriving DecidableEq

/-- The sem_handler_t flag fields.  The struct (declared in
semantic-check.h, outside the excerpted sources) carries two distinct
boolean fields, both referenced by semantic-check.c: error (written by
check_soa / check_cname / check_dname) and fatal_error (read by
sem_checks_process). -/
structure Handler where
  error : Bool
  fatalError : Bool
  deriving DecidableEq

/-- Checker state threaded through a run: the handler's flags plus the
sequence of callback invocations made so far. -/
structure St where
  handler : Handler
  trace : List Emission
  deriving DecidableEq

def emit (st : St) (owner : Rd) (code : SemError) (info : Option String) : St :=
  { st with trace := st.trace ++ [⟨owner, code, info⟩] }

/-- Outcome of resolving one NS target for the glue check.  This
abstracts the calls zone_contents_find_dname / zone_contents_find_node
(zone-tree code outside the excerpted sources) together with the
encloser-flags test and the wildcard fallback of check_delegation:
outOfZone and belowDeleg are the two continue cases, notFoundGlue g is
ZONE_NAME_NOT_FOUND with g the wildcard lookup's result, found is
ZONE_NAME_FOUND, err aborts the walk. -/
inductive GlueLookup where
  | outOfZone
  | belowDeleg
  | notFoundGlue (g : Option ZNode)
  | found (g : ZNode)
  | err (code : Int)

/-- External collaborators of the checker: the zone-tree lookup used by
check_delegation, libdnssec key/DS construction used by
check_submission, libdnssec digest support used by check_ds, and the
DNSSEC validator used by verify_dnssec.  createDS o ck dt is the DS
rdata computed from CDNSKEY rdata ck (owner o) with digest type dt,
composing dnssec_key_from_rdata (whose status is keyFromRdata) with
dnssec_key_create_ds. -/
structure SemExt where
  findGlue : Rd → GlueLookup
  keyFromRdata : Rd → Rd → Int
  createDS : Rd → Rd → Nat → Except Int Rd
  digestSupport : Nat → Bool
  validate : Zone → Int × Option (Rd × Nat)
  rrtypeToString : Nat → String

/-! ## Semantic checker: the check modules. -/

/-- Check levels (check_level_t bit values). -/
def MANDATORY : Nat := 1

def OPTIONAL : Nat := 2

def LVL_NSEC : Nat := 4

def LVL_NSEC3 : Nat := 8

/-- check_soa: at the apex only; if the SOA rrset is missing, set the
handler's error flag (the C code writes handler->error here) and emit
SOA_NONE. -/
def check_soa (zone : Zone) (node : ZNode) (st : St) : Int × St :=
  if node == zone.apex then
    match node_rdataset node RR_SOA with
    | some _ => (KNOT_EOK, st)
    | none =>
      let st := { st with handler := { st.handler with error := true } }
      (KNOT_EOK, emit st node.owner .SOA_NONE none)
  else (KNOT_EOK, st)

/-- check_cname. -/
def check_cname (node : ZNode) (st : St) : Int × St :=
  match node_rdataset node RR_CNAME with
  | none => (KNOT_EOK, st)
  | some cname_rrs =>
    let rrset_limit := 1 + (if node_rrtype_exists node RR_NSEC then 1 else 0)
                         + (if node_rrtype_exists node RR_RRSIG then 1 else 0)
    let st :=
      if rrset_count node > rrset_limit then
        let st := { st with handler := { st.handler with error := true } }
        emit st node.owner .CNAME_EXTRA_RECORDS none
      else st
    let st :=
      if cname_rrs.length ≠ 1 then
        let st := { st with handler := { st.handler with error := true } }
        emit st node.owner .CNAME_MULTIPLE none
      else st
    (KNOT_EOK, st)

/-- check_dname. -/
def check_dname (node : ZNode) (st : St) : Int × St :=
  match node_rdataset node RR_DNAME with
  | none => (KNOT_EOK, st)
  | some dname_rrs =>
    let is_apex := node.flagsApex
    let st :=
      if !is_apex && node_rrtype_exists node RR_NS then
        let st := { st with handler := { st.handler with error := true } }
        emit st node.owner .DNAME_EXTRA_NS none
      else st
    let allowed_children := if is_apex && node.hasNsec3 then 1 else 0
    let st :=
      if node.children > allowed_children then
        let st := { st with handler := { st.handler with error := true } }
        emit st node.owner .DNAME_CHILDREN none
      else st
    let st :=
      if dname_rrs.length ≠ 1 then
        let st := { st with handler := { st.handler with error := true } }
        emit st node.owner .DNAME_MULTIPLE none
      else st
    (KNOT_EOK, st)

/-- Glue presence test of check_delegation: the resolved node (if any)
must carry an A or AAAA rrset. -/
def glue_ok (g : Option ZNode) : Bool :=
  match g with
  | some n => node_rrtype_exists n RR_A || node_rrtype_exists n RR_AAAA
  | none => false

/-- The per-NS-record loop of check_delegation.  The NS target name is
the NS record's rdata (knot_ns_name). -/
def delegationLoop (ext : SemExt) (node : ZNode) : List Rd → St → Option Int × St
  | [], st => (none, st)
  | ns :: restNs, st =>
    match ext.findGlue ns with
    | .outOfZone => delegationLoop ext node restNs st
    | .belowDeleg => delegationLoop ext node restNs st
    | .notFoundGlue g =>
      let st := if !glue_ok g then emit st node.owner .NS_GLUE none else st
      delegationLoop ext node restNs st
    | .found g =>
      let st := if !glue_ok (some g) then emit st node.owner .NS_GLUE none else st
      delegationLoop ext node restNs st
    | .err c => (some c, st)

/-- check_delegation: runs at delegation points and at the apex; for
non-apex nodes only when OPTIONAL is in the level mask.  Missing NS at
the apex emits NS_APEX; otherwise each NS target is resolved and missing
glue emits NS_GLUE; a lookup failure aborts the walk with its code. -/
def check_delegation (ext : SemExt) (zone : Zone) (node : ZNode) (level : Nat)
    (st : St) : Int × St :=
  if !(node.flagsDeleg || node == zone.apex) then (KNOT_EOK, st)
  else if level &&& OPTIONAL == 0 && !(node == zone.apex) then (KNOT_EOK, st)
  else
    match node_rdataset node RR_NS with
    | none => (KNOT_EOK, emit st node.owner .NS_APEX none)
    | some ns_rrs =>
      match delegationLoop ext node ns_rrs st with
      | (some c, st) => (c, st)
      | (none, st) => (KNOT_EOK, st)

/-- Delete-CDS test of check_submission: length 5 and the first five
bytes equal to the literal empty_cds = 00 00 00 00 00. -/
def isDeleteCds (r : Rd) : Bool :=
  r.length == 5 && r.take 5 == [0, 0, 0, 0, 0]

/-- Delete-CDNSKEY test of check_submission: length 5 and the first five
bytes equal to the literal empty_cdnskey = 00 00 03 00 00. -/
def isDeleteCdnskey (r : Rd) : Bool :=
  r.length == 5 && r.take 5 == [0, 0, 3, 0, 0]

/-- knot_ds_digest_type: byte at offset 3 of the DS/CDS rdata. -/
def ds_digest_type (r : Rd) : Nat := r.getD 3 0

/-- knot_ds_key_tag: big-endian 16-bit value at offset 0. -/
def ds_key_tag (r : Rd) : Nat := r.getD 0 0 * 256 + r.getD 1 0

/-- knot_ds_digest_len: rdata length minus the 4 fixed header bytes,
as the uint16 arithmetic of the accessor computes it. -/
def ds_digest_len (r : Rd) : Nat := (r.length + 65532) % 65536

/-- The CDNSKEY loop of check_submission: skip the delete entry
(recording that it was seen), otherwise emit CDNSKEY_NO_DNSKEY unless
the rdata byte-matches some DNSKEY rdata at the apex (knot_rdata_cmp
compares length then bytes, so equality is list equality; the C loop
guard dnskeys != NULL makes an absent rrset match nothing). -/
def cdnskeyLoop (dnskeys : Option (List Rd)) (owner : Rd) :
    List Rd → Bool → St → Bool × St
  | [], del, st => (del, st)
  | ck :: restCk, del, st =>
    if isDeleteCdnskey ck then cdnskeyLoop dnskeys owner restCk true st
    else
      let found :=
        match dnskeys with
        | some dks => dks.contains ck
        | none => false
      if found then cdnskeyLoop dnskeys owner restCk del st
      else cdnskeyLoop dnskeys owner restCk del (emit st owner .CDNSKEY_NO_DNSKEY none)

/-- The inner CDNSKEY scan of the CDS loop: for each CDNSKEY, a failed
dnssec_key_from_rdata skips it, a failed dnssec_key_create_ds aborts the
whole check with that status, and a computed DS equal to the CDS rdata
(dnssec_binary_cmp == 0) is a match. -/
def cdsMatchLoop (ext : SemExt) (owner : Rd) (cds : Rd) (dt : Nat) :
    List Rd → Except Int Bool
  | [] => .ok false
  | ck :: restCk =>
    if ext.keyFromRdata owner ck ≠ 0 then cdsMatchLoop ext owner cds dt restCk
    else
      match ext.createDS owner ck dt with
      | .error e => .error e
      | .ok dsCalc =>
        if cds == dsCalc then .ok true
        else cdsMatchLoop ext owner cds dt restCk

/-- The CDS loop of check_submission: skip the delete entry (recording
it), otherwise emit CDS_NOT_MATCH unless some CDNSKEY's computed DS
matches; a create-DS failure aborts with its status (first component
some code). -/
def cdsLoop (ext : SemExt) (owner : Rd) (cdnskeys : List Rd) :
    List Rd → Bool → St → Option Int × Bool × St
  | [], del, st => (none, del, st)
  | cds :: restCds, del, st =>
    let dt := ds_digest_type cds
    if isDeleteCds cds then cdsLoop ext owner cdnskeys restCds true st
    else
      match cdsMatchLoop ext owner cds dt cdnskeys with
      | .error e => (some e, del, st)
      | .ok true => cdsLoop ext owner cdnskeys restCds del st
      | .ok false =>
        cdsLoop ext owner cdnskeys restCds del (emit st owner .CDS_NOT_MATCH none)

/-- The body of check_submission once both rrsets are present: the
DNSKEY-absence report, the two scan loops, the delete-pairing check and
the orphaned-CDS check, in the C order. -/
def check_submission_present (ext : SemExt) (zone : Zone) (node : ZNode)
    (cdss cdnskeys : List Rd) (st : St) : Int × St :=
  let dnskeys := node_rdataset zone.apex RR_DNSKEY
  let st := if dnskeys.isNone then emit st node.owner .DNSKEY_NONE none else st
  match cdnskeyLoop dnskeys zone.apex.owner cdnskeys false st with
  | (delCdnskey, st) =>
    match cdsLoop ext zone.apex.owner cdnskeys cdss false st with
    | (some e, _, st) => (e, st)
    | (none, delCds, st) =>
      let st :=
        if (delCds && (!delCdnskey || cdss.length > 1)) ||
           (delCdnskey && (!delCds || cdnskeys.length > 1)) then
          emit st node.owner .CDNSKEY_INVALID_DELETE none
        else st
      let st :=
        if cdss.length < cdnskeys.length then
          emit st node.owner .CDNSKEY_NO_CDS none
        else st
      (KNOT_EOK, st)

/-- check_submission: CDS/CDNSKEY consistency at a node (in practice the
apex), per semantic-check.c lines 252-362. -/
def check_submission (ext : SemExt) (zone : Zone) (node : ZNode) (st : St) :
    Int × St :=
  match node_rdataset node RR_CDS, node_rdataset node RR_CDNSKEY with
  | none, none => (KNOT_EOK, st)
  | none, some _ => (KNOT_EOK, emit st node.owner .CDS_NONE none)
  | some _, none => (KNOT_EOK, emit st node.owner .CDNSKEY_NONE none)
  | some cdss, some cdnskeys => check_submission_present ext zone node cdss cdnskeys st

/-- The per-record body of check_ds: digest_sizes is the C array
{0, 20, 32, 32, 48} indexed by the digest type. -/
def dsRecLoop (ext : SemExt) (owner : Rd) : List Rd → St → St
  | [], st => st
  | ds :: restDs, st =>
    let keytag := ds_key_tag ds
    let dt := ds_digest_type ds
    let info := "(keytag " ++ toString keytag ++ ")"
    if !ext.digestSupport dt then
      dsRecLoop ext owner restDs (emit st owner .DS_RDATA_ALG (some info))
    else if [0, 20, 32, 32, 48].getD dt 0 ≠ ds_digest_len ds then
      dsRecLoop ext owner restDs (emit st owner .DS_RDATA_DIGLEN (some info))
    else dsRecLoop ext owner restDs st

/-- check_ds, per semantic-check.c lines 373-405. -/
def check_ds (ext : SemExt) (node : ZNode) (st : St) : Int × St :=
  match node_rdataset node RR_DS with
  | none => (KNOT_EOK, st)
  | some dss => (KNOT_EOK, dsRecLoop ext node.owner dss st)

/-! ## Semantic checker: dispatcher, walk and entry point. -/

/-- The CHECK_FUNCTIONS table: each check with its level mask, in the
order of the C array. -/
def CHECK_FUNCTIONS (ext : SemExt) :
    List ((Zone → ZNode → Nat → St → Int × St) × Nat) :=
  [ (fun z n _ st => check_soa z n st, MANDATORY),
    (fun _ n _ st => check_cname n st, MANDATORY),
    (fun _ n _ st => check_dname n st, MANDATORY),
    (fun z n lvl st => check_delegation ext z n lvl st, MANDATORY),
    (fun _ n _ st => check_ds ext n st, OPTIONAL),
    (fun z n _ st => check_submission ext z n st, LVL_NSEC ||| LVL_NSEC3) ]

/-- do_checks_in_tree: run every check whose level intersects the mask,
stopping at the first non-EOK status. -/
def run_checks (zone : Zone) (level : Nat) (node : ZNode) :
    List ((Zone → ZNode → Nat → St → Int × St) × Nat) → St → Int × St
  | [], st => (KNOT_EOK, st)
  | (f, mask) :: restF, st =>
    if mask &&& level ≠ 0 then
      match f zone node level st with
      | (ret, st') =>
        if ret ≠ KNOT_EOK then (ret, st')
        else run_checks zone level node restF st'
    else run_checks zone level node restF st

def do_checks_in_tree (ext : SemExt) (zone : Zone) (level : Nat) (node : ZNode)
    (st : St) : Int × St :=
  run_checks zone level node (CHECK_FUNCTIONS ext) st

/-- zone_contents_apply: apply do_checks_in_tree to every node, aborting
on a non-EOK return. -/
def zone_walk (ext : SemExt) (zone : Zone) (level : Nat) :
    List ZNode → St → Int × St
  | [], st => (KNOT_EOK, st)
  | n :: restN, st =>
    match do_checks_in_tree ext zone level n st with
    | (ret, st') =>
      if ret ≠ KNOT_EOK then (ret, st')
      else zone_walk ext zone level restN st'

/-- knot_nsec3param_flags / knot_nsec3param_alg read bytes 1 and 0 of
the first NSEC3PARAM rdata; DNSSEC_NSEC3_ALGORITHM_SHA1 = 1. -/
def check_nsec3param (zone : Zone) (nsec3param : List Rd) (st : St) : St :=
  let rdata := nsec3param.getD 0 []
  let st :=
    if rdata.getD 1 0 &&& 254 ≠ 0 then
      emit st zone.apex.owner .NSEC3PARAM_RDATA_FLAGS none
    else st
  if rdata.getD 0 0 ≠ 1 then
    emit st zone.apex.owner .NSEC3PARAM_RDATA_ALG none
  else st

/-- err_dnssec2sem. -/
def err_dnssec2sem (e : Int) : SemError :=
  if e = KNOT_DNSSEC_ENOSIG then .RRSIG_UNVERIFIABLE
  else if e = KNOT_DNSSEC_ENSEC_BITMAP then .NSEC_RDATA_BITMAP
  else if e = KNOT_DNSSEC_ENSEC_CHAIN then .NSEC_RDATA_CHAIN
  else if e = KNOT_DNSSEC_ENSEC3_OPTOUT then .NSEC3_INSECURE_DELEGATION_OPT
  else .UNKNOWN

/-- verify_dnssec: run the external validator (ext.validate returns the
status and the optional hint (node owner, rrtype)); a hint is reported
through the handler with the stringified rrtype, a hintless
INVALID_PUBLIC_KEY is reported as DNSKEY_INVALID at the apex, any other
hintless failure propagates. -/
def verify_dnssec (ext : SemExt) (zone : Zone) (st : St) : Int × St :=
  match ext.validate zone with
  | (ret, some (hintOwner, rrtype)) =>
    (KNOT_EOK, emit st hintOwner (err_dnssec2sem ret) (some (ext.rrtypeToString rrtype)))
  | (ret, none) =>
    if ret = KNOT_INVALID_PUBLIC_KEY then
      (KNOT_EOK, emit st zone.apex.owner .DNSKEY_INVALID none)
    else (ret, st)

inductive SemcheckOptional where
  | MANDATORY_ONLY
  | FULL
  | DNSSEC
  | AUTO_DNSSEC
  deriving DecidableEq

/-- sem_checks_process, per semantic-check.c lines 579-627, on non-null
zone and handler (the C null guards return KNOT_EINVAL and
KNOT_EEMPTYZONE before this body runs).  The level mask is computed from
the option, NSEC3PARAM sanity checks run when an apex NSEC3PARAM exists,
the walk runs, ESEMCHECK is returned when the handler's fatal_error
field is set, and the DNSSEC validator runs last when requested.
The unused time argument is kept for signature fidelity. -/
def sem_checks_process (ext : SemExt) (zone : Zone) (optional : SemcheckOptional)
    (handler : Handler) (_time : Nat) : Int × St :=
  let st0 : St := ⟨handler, []⟩
  let dnssecRun :=
    optional = SemcheckOptional.DNSSEC ∨
      (optional = SemcheckOptional.AUTO_DNSSEC ∧ zone.dnssec)
  let (level, st1) :=
    if optional ≠ SemcheckOptional.MANDATORY_ONLY then
      let lvl := MANDATORY ||| OPTIONAL
      if decide dnssecRun then
        match node_rdataset zone.apex RR_NSEC3PARAM with
        | some ps => (lvl ||| LVL_NSEC3, check_nsec3param zone ps st0)
        | none => (lvl ||| LVL_NSEC, st0)
      else (lvl, st0)
    else (MANDATORY, st0)
  match zone_walk ext zone level (zone.apex :: zone.rest) st1 with
  | (ret, st2) =>
    if ret ≠ KNOT_EOK then (ret, st2)
    else if st2.handler.fatalError then (KNOT_ESEMCHECK, st2)
    else if decide dnssecRun then verify_dnssec ext zone st2
    else (KNOT_EOK, st2)

/-! ## DoQ client: data model.

The quic_ctx_t connection context from utils/common/quic.h, with the
ngtcp2 connection object itself abstracted away: what ngtcp2 does during
ngtcp2_conn_read_pkt / ngtcp2_conn_writev_stream is an input of the
embedding (RecvEnv / WritevStep below), and the context carries exactly
the fields the excerpted code reads and writes. -/

/-- ngtcp2 library error codes (ngtcp2.h; external).  The proofs rely
only on these being the fixed negative values below and on
ngtcp2_err_is_fatal meaning "below NGTCP2_ERR_FATAL". -/
def NGTCP2_ERR_STREAM_DATA_BLOCKED : Int := -210

def NGTCP2_ERR_STREAM_SHUT_WR : Int := -221

def NGTCP2_ERR_DROP_CONN : Int := -371

def NGTCP2_ERR_FATAL : Int := -500

def NGTCP2_ERR_NOMEM : Int := -501

def NGTCP2_ERR_CALLBACK_FAILURE : Int := -502

def NGTCP2_ERR_WRITE_MORE : Int := -510

def ngtcp2_err_is_fatal (e : Int) : Bool := e < NGTCP2_ERR_FATAL

/-- ngtcp2_err_infer_quic_transport_error_code (external library
function); the theorems never inspect the produced value, only that the
writer records a transport-class close built from it. -/
def infer_quic_transport_error_code (e : Int) : Int :=
  if e = NGTCP2_ERR_NOMEM ∨ e = NGTCP2_ERR_CALLBACK_FAILURE then 1 else 10

def DOQ_NO_ERROR : Nat := 0

def DOQ_PROTOCOL_ERROR : Nat := 2

def NGTCP2_SECONDS : Nat := 1000000000

/-- knot_map_errno: the libknot errno-to-error mapping (errcode.h,
external); identified codes are the negated errno values. -/
def knot_map_errno (e : Int) : Int := -e

inductive ConnState where
  | OPENING
  | CONNECTED
  | CLOSED
  deriving DecidableEq

inductive CloseKind where
  | application
  | transport
  deriving DecidableEq

/-- ngtcp2_connection_close_error as the client uses it: close class,
error code (the uint64 the C code stores, kept as Int), reason bytes. -/
structure CloseErr where
  kind : CloseKind
  code : Int
  reason : String
  deriving DecidableEq

/-- The stream sub-structure: id is int64 with -1 meaning not open; sent
is the uint64 bytes-in-flight counter; in_storage is the TCP-style
reassembly buffer; out_storage/out_storage_len/out_storage_it mirror the
completed-message vector, its length field, and the running iterator
(out_storage == NULL is none). -/
structure QStream where
  id : Int
  sent : Nat
  inStorage : List Nat
  outStorage : Option (List (List Nat))
  outStorageLen : Nat
  outStorageIt : Nat
  deriving DecidableEq

/-- The tls_ctx_t fields the excerpted code reads. -/
structure TlsInfo where
  sockfd : Int
  wait : Nat
  deriving DecidableEq

structure QuicCtx where
  state : ConnState
  stream : QStream
  lastErr : CloseErr
  timestamp : Nat
  ecn : Nat
  tls : Option TlsInfo
  deriving DecidableEq

def U64MOD : Nat := 2 ^ 64

/-- uint64 addition. -/
def u64add (a b : Nat) : Nat := (a + b) % U64MOD

/-- uint64 subtraction (two's-complement wraparound). -/
def u64sub (a b : Nat) : Nat := (a + U64MOD - b % U64MOD) % U64MOD

def set_application_error (ctx : QuicCtx) (code : Nat) (reason : String) : QuicCtx :=
  { ctx with lastErr := ⟨.application, (code : Int), reason⟩ }

def set_transport_error (ctx : QuicCtx) (code : Int) (reason : String) : QuicCtx :=
  { ctx with lastErr := ⟨.transport, code, reason⟩ }

/-- The quic_timeout macro: ts + NGTCP2_SECONDS * wait <= now. -/
def quic_timeout (ts wait now : Nat) : Bool := ts + NGTCP2_SECONDS * wait ≤ now

/-! ## DoQ client: ngtcp2 callbacks. -/

/-- Behaviour of the external tcp_inbuf_update (libknot/xdp/tcp_iobuf,
outside the excerpted sources): given the current reassembly buffer and
the arriving bytes it yields a status, the new reassembly buffer and the
newly completed messages appended to the outbound vector. -/
structure TcpOutcome where
  ret : Int
  newIn : List Nat
  appended : List (List Nat)

abbrev TcpUpdateFn := List Nat → List Nat → TcpOutcome

/-- recv_stream_data_cb: data for a stream other than the current one is
ignored with success; otherwise the reassembly buffer is updated, a
tcp_inbuf_update failure fails the callback, and on success the
last-activity timestamp is refreshed and the message iterator reset. -/
def recv_stream_data_cb (tcp : TcpUpdateFn) (now : Nat) (ctx : QuicCtx)
    (streamId : Int) (data : List Nat) : Int × QuicCtx :=
  if streamId ≠ ctx.stream.id then (0, ctx)
  else
    let o := tcp ctx.stream.inStorage data
    let combined := (ctx.stream.outStorage.getD []) ++ o.appended
    let stream' := { ctx.stream with
      inStorage := o.newIn,
      outStorage := if combined.isEmpty then none else some combined,
      outStorageLen := ctx.stream.outStorageLen + o.appended.length }
    let ctx := { ctx with stream := stream' }
    if o.ret ≠ 0 then (NGTCP2_ERR_CALLBACK_FAILURE, ctx)
    else
      (0, { ctx with timestamp := now,
                     stream := { ctx.stream with outStorageIt := 0 } })

/-- stream_open_cb: a stream id not divisible by 4 (C int64 remainder)
is rejected by recording an application close DOQ_PROTOCOL_ERROR with
reason "Server can't open streams." and failing the callback. -/
def stream_open_cb (ctx : QuicCtx) (streamId : Int) : Int × QuicCtx :=
  if streamId.tmod 4 ≠ 0 then
    (NGTCP2_ERR_CALLBACK_FAILURE,
     set_application_error ctx DOQ_PROTOCOL_ERROR "Server can\x27t open streams.")
  else (KNOT_EOK, ctx)

/-- acked_stream_data_offset_cb: acknowledged bytes of the current
stream are subtracted from the in-flight counter. -/
def acked_stream_data_offset_cb (ctx : QuicCtx) (streamId : Int) (datalen : Nat) :
    Int × QuicCtx :=
  if ctx.stream.id == streamId then
    (KNOT_EOK, { ctx with stream := { ctx.stream with sent := u64sub ctx.stream.sent datalen } })
  else (KNOT_EOK, ctx)

/-- stream_close_cb: closing the current stream clears its id to -1. -/
def stream_close_cb (ctx : QuicCtx) (streamId : Int) : Int × QuicCtx :=
  if streamId == ctx.stream.id then
    (KNOT_EOK, { ctx with stream := { ctx.stream with id := -1 } })
  else (KNOT_EOK, ctx)

/-- handshake_confirmed_cb. -/
def handshake_confirmed_cb (ctx : QuicCtx) : Int × QuicCtx :=
  (0, { ctx with state := .CONNECTED })

/-- One callback invocation that ngtcp2 delivers while processing a
received packet. -/
inductive CbEvent where
  | streamOpen (id : Int)
  | ackedOffset (id : Int) (datalen : Nat)
  | streamClose (id : Int)
  | hsConfirmed
  | recvStreamData (id : Int) (data : List Nat)

def applyCbEvent (tcp : TcpUpdateFn) (now : Nat) (ctx : QuicCtx) :
    CbEvent → Int × QuicCtx
  | .streamOpen i => stream_open_cb ctx i
  | .ackedOffset i dlen => acked_stream_data_offset_cb ctx i dlen
  | .streamClose i => stream_close_cb ctx i
  | .hsConfirmed => handshake_confirmed_cb ctx
  | .recvStreamData i d => recv_stream_data_cb tcp now ctx i d

/-- Deliver the packet's callbacks in order; per the ngtcp2 contract a
failing callback aborts processing and read_pkt reports
NGTCP2_ERR_CALLBACK_FAILURE. -/
def runRecvEvents (tcp : TcpUpdateFn) (now : Nat) (ctx : QuicCtx) :
    List CbEvent → Int × QuicCtx
  | [] => (0, ctx)
  | ev :: restEv =>
    match applyCbEvent tcp now ctx ev with
    | (r, ctx') =>
      if r ≠ 0 then (NGTCP2_ERR_CALLBACK_FAILURE, ctx')
      else runRecvEvents tcp now ctx' restEv

/-- The environment of one quic_recv call: the recvmsg result (byte
count or failure with errno), the ECN value extracted from the control
messages with the errno quic_get_ecn leaves, and what
ngtcp2_conn_read_pkt does: the callbacks it delivers and its final
status when no callback failed. -/
structure RecvEnv where
  nread : Int
  recvErrno : Int
  ecn : Nat
  ecnErrno : Int
  events : List CbEvent
  readRet : Int

/-- quic_recv, per quic.c lines 488-530.  Note that the DROP_CONN and
fatality tests are applied to nwrite, the recvmsg byte count, exactly as
the C code does. -/
def quic_recv (tcp : TcpUpdateFn) (env : RecvEnv) (now : Nat) (ctx : QuicCtx) :
    Int × QuicCtx :=
  if env.nread ≤ 0 then (knot_map_errno env.recvErrno, ctx)
  else
    let ctx := { ctx with ecn := env.ecn }
    if env.ecn = 0 ∧ env.ecnErrno ≠ 0 then (knot_map_errno env.ecnErrno, ctx)
    else
      match runRecvEvents tcp now ctx env.events with
      | (cbRet, ctx) =>
        let ret := if cbRet ≠ 0 then cbRet else env.readRet
        if ret ≠ 0 then
          if env.nread = NGTCP2_ERR_DROP_CONN then
            (KNOT_NET_ERECV, { ctx with state := .CLOSED })
          else if ngtcp2_err_is_fatal env.nread then
            (KNOT_NET_ERECV, set_transport_error ctx env.nread "")
          else (KNOT_NET_ERECV, ctx)
        else (KNOT_EOK, ctx)

/-- quic_respcpy, per quic.c lines 532-550: the third component is the
bytes copied into the caller's buffer, if any. -/
def quic_respcpy (ctx : QuicCtx) (bufLen : Nat) : Int × QuicCtx × Option (List Nat) :=
  match ctx.stream.outStorage with
  | some msgs =>
    if ctx.stream.outStorageIt < ctx.stream.outStorageLen then
      let msg := msgs.getD ctx.stream.outStorageIt []
      if bufLen < msg.length then (KNOT_ENOMEM, ctx, none)
      else
        let it' := ctx.stream.outStorageIt + 1
        let stream' :=
          if it' = ctx.stream.outStorageLen then
            { ctx.stream with outStorage := none, outStorageLen := 0, outStorageIt := it' }
          else { ctx.stream with outStorageIt := it' }
        ((msg.length : Int), { ctx with stream := stream' }, some msg)
    else (0, ctx, none)
  | none => (0, ctx, none)

/-! ## DoQ client: the packet writer. -/

/-- One iteration of the writer loop as the environment provides it: the
ngtcp2_conn_writev_stream result, the quic_set_enc status, and whether
sendmsg succeeded. -/
structure WritevStep where
  nwrite : Int
  setEncRet : Int
  sendmsgOk : Bool

/-- One recorded call into ngtcp2_conn_writev_stream: the stream id
passed (or -1), whether the FIN flag was set, and the data vector. -/
structure WritevCall where
  stream : Int
  fin : Bool
  datav : List (List Nat)
  deriving DecidableEq

/-- quic_send_data, per quic.c lines 425-486, also recording the calls
made into the library.  With pending payload the current stream id and
the FIN flag are passed, otherwise stream -1 and no flags; negative
results map as in the C switch (STREAM_DATA_BLOCKED folds to OK, NOMEM
to ENOMEM, WRITE_MORE continues with the vector kept, STREAM_SHUT_WR
clears the stream id and falls through to the transport-close path),
zero means done, and a positive byte count consumes the vector, echoes
ECN via quic_set_enc and sends the datagram.  none means the
environment's step list ended while the loop was still running. -/
def quic_send_data (ctx : QuicCtx) :
    List WritevStep → List (List Nat) → Option (Int × QuicCtx) × List WritevCall
  | [], _ => (none, [])
  | s :: restS, datav =>
    let call : WritevCall :=
      ⟨if datav.isEmpty then -1 else ctx.stream.id, !datav.isEmpty, datav⟩
    if s.nwrite < 0 then
      if s.nwrite = NGTCP2_ERR_STREAM_DATA_BLOCKED then (some (KNOT_EOK, ctx), [call])
      else if s.nwrite = NGTCP2_ERR_NOMEM then (some (KNOT_ENOMEM, ctx), [call])
      else if s.nwrite = NGTCP2_ERR_WRITE_MORE then
        match quic_send_data ctx restS datav with
        | (r, calls) => (r, call :: calls)
      else if s.nwrite = NGTCP2_ERR_STREAM_SHUT_WR then
        let ctx := { ctx with stream := { ctx.stream with id := -1 } }
        (some (KNOT_NET_ESEND,
               set_transport_error ctx (infer_quic_transport_error_code s.nwrite) ""), [call])
      else
        (some (KNOT_NET_ESEND,
               set_transport_error ctx (infer_quic_transport_error_code s.nwrite) ""), [call])
    else if s.nwrite = 0 then (some (KNOT_EOK, ctx), [call])
    else if s.setEncRet ≠ KNOT_EOK then (some (s.setEncRet, ctx), [call])
    else if !s.sendmsgOk then (some (KNOT_NET_ESEND, ctx), [call])
    else
      match quic_send_data ctx restS [] with
      | (r, calls) => (r, call :: calls)

/-! ## DoQ client: public operations. -/

/-- quic_ctx_init on non-null arguments: state OPENING, stream id -1,
fresh timestamp, last error an application DOQ_NO_ERROR; the caller
zero-initialises the remaining fields (secret generation is external
randomness and not modelled). -/
def quic_ctx_init (tls : TlsInfo) (now : Nat) : QuicCtx :=
  { state := .OPENING,
    stream := { id := -1, sent := 0, inStorage := [], outStorage := none,
                outStorageLen := 0, outStorageIt := 0 },
    lastErr := ⟨.application, (DOQ_NO_ERROR : Int), ""⟩,
    timestamp := now,
    ecn := 0,
    tls := some tls }

/-- Modelled from the spec: the close operation (quic_ctx_close is not
among the excerpted sources) — "close(ctx): moves state to CLOSED;
terminal." -/
def quic_ctx_close (ctx : QuicCtx) : QuicCtx := { ctx with state := .CLOSED }

/-- One iteration of a driver loop as the environment provides it: the
wall-clock time at the loop head, the writer-loop steps, the poll result
with its errno, and the receive environment used when poll reports
readability. -/
structure DriverIter where
  now : Nat
  writeSteps : List WritevStep
  pollRet : Int
  pollErrno : Int
  recvEnv : RecvEnv

/-- The send/poll/recv loop of quic_send_dns_query (quic.c lines
776-799).  pdatav is the remaining data vector (cleared after the first
successful writer call, as the C code nulls pdatav/datavlen); the
accumulated writer-call trace is threaded through.  none means the
environment ended while bytes were still in flight. -/
def send_query_loop (tcp : TcpUpdateFn) (wait : Nat) :
    List DriverIter → QuicCtx → List (List Nat) → List WritevCall →
    Option (Int × QuicCtx × List WritevCall)
  | iters, ctx, pdatav, tr =>
    if ctx.stream.sent = 0 then some (KNOT_EOK, ctx, tr)
    else
      match iters with
      | [] => none
      | it :: restIt =>
        if quic_timeout ctx.timestamp wait it.now then some (KNOT_NET_ETIMEOUT, ctx, tr)
        else
          match quic_send_data ctx it.writeSteps pdatav with
          | (none, _) => none
          | (some (ret, ctx'), calls) =>
            let tr := tr ++ calls
            if ret ≠ KNOT_EOK then some (ret, ctx', tr)
            else if it.pollRet < 0 then some (knot_map_errno it.pollErrno, ctx', tr)
            else if it.pollRet = 0 then send_query_loop tcp wait restIt ctx' [] tr
            else
              match quic_recv tcp it.recvEnv it.now ctx' with
              | (r, ctx'') =>
                if r ≠ KNOT_EOK then some (r, ctx'', tr)
                else send_query_loop tcp wait restIt ctx'' [] tr

/-- quic_send_dns_query, per quic.c lines 748-802, on non-null ctx and
buf (the C null guard returns KNOT_NET_ESEND).  The query is framed as
the two-element vector [htons((uint16)buf_len) as two bytes][buf], the
in-flight counter grows by buf_len + 2 before the driver loop, and the
loop runs until the counter reaches zero. -/
def quic_send_dns_query (tcp : TcpUpdateFn) (iters : List DriverIter)
    (ctx : QuicCtx) (buf : List Nat) : Option (Int × QuicCtx × List WritevCall) :=
  let queryLength := buf.length % 65536
  let datav : List (List Nat) := [[queryLength / 256, queryLength % 256], buf]
  let wait := (ctx.tls.getD ⟨0, 0⟩).wait
  let ctx := { ctx with stream :=
    { ctx.stream with sent := u64add ctx.stream.sent (buf.length + 2) } }
  send_query_loop tcp wait iters ctx datav []

/-- The poll/recv/drain/send loop of quic_recv_dns_response (quic.c
lines 825-848); the quic_send macro is quic_send_data with no payload. -/
def recv_resp_loop (tcp : TcpUpdateFn) (wait : Nat) (bufLen : Nat) :
    List DriverIter → QuicCtx → Option (Int × QuicCtx × Option (List Nat))
  | [], _ => none
  | it :: restIt, ctx =>
    if quic_timeout ctx.timestamp wait it.now then some (KNOT_NET_ETIMEOUT, ctx, none)
    else if it.pollRet < 0 then some (knot_map_errno it.pollErrno, ctx, none)
    else if it.pollRet = 0 then
      match quic_send_data ctx it.writeSteps [] with
      | (none, _) => none
      | (some (r, ctx'), _) =>
        if r ≠ KNOT_EOK then some (r, ctx', none)
        else recv_resp_loop tcp wait bufLen restIt ctx'
    else
      match quic_recv tcp it.recvEnv it.now ctx with
      | (r, ctx') =>
        if r ≠ KNOT_EOK then some (r, ctx', none)
        else
          match quic_respcpy ctx' bufLen with
          | (rc, ctx'', m) =>
            if rc ≠ 0 then some (rc, ctx'', m)
            else
              match quic_send_data ctx'' it.writeSteps [] with
              | (none, _) => none
              | (some (rs, ctx3), _) =>
                if rs ≠ KNOT_EOK then some (rs, ctx3, none)
                else recv_resp_loop tcp wait bufLen restIt ctx3

/-- quic_recv_dns_response, per quic.c lines 804-851, on non-null ctx
and buf; the representable part of the argument guard (a null tls
pointer inside the context) returns KNOT_EINVAL.  Any already completed
message is drained first; otherwise the loop runs until the deadline. -/
def quic_recv_dns_response (tcp : TcpUpdateFn) (iters : List DriverIter)
    (ctx : QuicCtx) (bufLen : Nat) : Option (Int × QuicCtx × Option (List Nat)) :=
  if ctx.tls.isNone then some (KNOT_EINVAL, ctx, none)
  else
    match quic_respcpy ctx bufLen with
    | (r, ctx', m) =>
      if r ≠ 0 then some (r, ctx', m)
      else recv_resp_loop tcp (ctx.tls.getD ⟨0, 0⟩).wait bufLen iters ctx'

/-! ## Shared concrete instances used by the theorems. -/

/-- A trivial instantiation of the checker's external collaborators. -/
def extTriv : SemExt :=
  { findGlue := fun _ => .outOfZone,
    keyFromRdata := fun _ _ => 0,
    createDS := fun _ _ _ => .ok [],
    digestSupport := fun _ => true,
    validate := fun _ => (0, none),
    rrtypeToString := fun _ => "" }

/-- A trivial reassembly collaborator: bytes accumulate, no message
completes. -/
def tcpTriv : TcpUpdateFn := fun inb d => ⟨0, inb ++ d, []⟩

/-! ## Claim C1. -/

/-- The apex of the wire form of "example." with no rrsets at all — in
particular no SOA. -/
def apexC1 : ZNode :=
  { owner := [7, 101, 120, 97, 109, 112, 108, 101, 0], flagsDeleg := false,
    flagsNonauth := false, flagsApex := true, children := 0, hasNsec3 := false,
    rrsets := [] }

def zoneC1 : Zone := { apex := apexC1, rest := [], dnssec := false }

/-! ## Claim C6. -/

/-- The digest-length table exactly as the specification words it:
SHA-1 (1) maps to 20, SHA-256 (2) to 32, GOST (3) to 32, SHA-384 (4)
to 48. -/
def dsSpecTable : Nat → Nat
  | 1 => 20
  | 2 => 32
  | 3 => 32
  | 4 => 48
  | _ => 0

/-- The specification's description of what one DS record contributes:
DS_RDATA_ALG when the digest algorithm is unsupported, otherwise exactly
one DS_RDATA_DIGLEN when the actual digest length disagrees with the
spec table, each carrying the info string "(keytag N)". -/
def dsSpecEmission (ext : SemExt) (owner : Rd) (r : Rd) : List Emission :=
  let info := "(keytag " ++ toString (ds_key_tag r) ++ ")"
  if !ext.digestSupport (ds_digest_type r) then [⟨owner, .DS_RDATA_ALG, some info⟩]
  else if dsSpecTable (ds_digest_type r) ≠ ds_digest_len r then
    [⟨owner, .DS_RDATA_DIGLEN, some info⟩]
  else []

/-- The delete-pairing violation of the claim: a delete entry is present
on some side, and either the other side lacks a delete entry or the side
carrying it has more than that single entry. -/
def invalid_delete_condition (cdss cdnskeys : List Rd) : Bool :=
  (cdss.any isDeleteCds && (!(cdnskeys.any isDeleteCdnskey) || cdss.length > 1)) ||
  (cdnskeys.any isDeleteCdnskey && (!(cdss.any isDeleteCds) || cdnskeys.length > 1))

/-- The apex of the C4/C5 scenario zone: one delete CDS, one non-delete
CDNSKEY that byte-matches the single apex DNSKEY. -/
def apexDel : ZNode :=
  { owner := [2, 99, 52, 0], flagsDeleg := false, flagsNonauth := false,
    flagsApex := true, children := 0, hasNsec3 := false,
    rrsets := [(RR_CDS, [[0, 0, 0, 0, 0]]), (RR_CDNSKEY, [[1, 1, 1]]),
               (RR_DNSKEY, [[1, 1, 1]])] }

def zoneDel : Zone := { apex := apexDel, rest := [], dnssec := true }

/-- A collaborator whose DS computation always yields the rdata 09 09,
and an apex whose single CDS is that value, with matching CDNSKEY and
DNSKEY. -/
def extOkDs : SemExt := { extTriv with createDS := fun _ _ _ => .ok [9, 9] }

def apexOkDs : ZNode :=
  { owner := [2, 99, 55, 0], flagsDeleg := false, flagsNonauth := false,
    flagsApex := true, children := 0, hasNsec3 := false,
    rrsets := [(RR_CDS, [[9, 9]]), (RR_CDNSKEY, [[1, 1, 1]]),
               (RR_DNSKEY, [[1, 1, 1]])] }

def zoneOkDs : Zone := { apex := apexOkDs, rest := [], dnssec := true }

/-- The DS record of spec scenario 3: keytag 12345, digest type 2,
digest of length 31. -/
def dsRecC6 : Rd := [48, 57, 8, 2] ++ List.replicate 31 0

def apexC6 : ZNode :=
  { owner := [2, 99, 54, 0], flagsDeleg := false, flagsNonauth := false,
    flagsApex := true, children := 0, hasNsec3 := false,
    rrsets := [(RR_DS, [dsRecC6])] }

/-- Digest support restricted to SHA-256, as a concrete collaborator. -/
def extC6 : SemExt := { extTriv with digestSupport := fun t => t == 2 }

/-! ## Concrete DoQ contexts used by the theorems. -/

/-- The tls_ctx_t of the scenarios: socket 3, one-second deadline. -/
def tlsW : TlsInfo := ⟨3, 1⟩

/-- A freshly initialised context. -/
def ctxInit0 : QuicCtx := quic_ctx_init tlsW 0

/-- A context as quic_ctx_connect leaves it after the handshake: state
CONNECTED, the single bidirectional stream 0 open. -/
def ctxConnected : QuicCtx :=
  { ctxInit0 with
    state := .CONNECTED,
    stream := { ctxInit0.stream with id := 0 } }

/-- ctxConnected with one completed 3-byte response queued. -/
def ctxQueued : QuicCtx :=
  { ctxConnected with stream :=
    { ctxConnected.stream with outStorage := some [[7, 7, 7]], outStorageLen := 1,
                               outStorageIt := 0 } }

/-- ctxConnected with a null tls pointer. -/
def ctxNoTls : QuicCtx := { ctxConnected with tls := none }

/-- ctxConnected with 5 bytes in flight. -/
def ctxSent5 : QuicCtx :=
  { ctxConnected with stream := { ctxConnected.stream with sent := 5 } }

/-- A driver iteration whose write completes (writev returns 0), whose
poll reports readability and whose received packet acks 5 stream-0
bytes. -/
def iterAckC7 : DriverIter := ⟨1, [⟨0, 0, true⟩], 1, 0, ⟨100, 0, 2, 0, [.ackedOffset 0 5], 0⟩⟩

/-- A driver iteration far past the one-second deadline. -/
def iterFarC7 : DriverIter := ⟨10000000000, [], 0, 0, ⟨100, 0, 2, 0, [], 0⟩⟩

/-! ## Theorems: helper lemmas, then one theorem (with witness or
counterexample) per claim. -/

/-- Claim C1 (code_bug evidence): for the zone whose apex carries no SOA
rrset, sem_checks_process run with MANDATORY_ONLY and a fresh handler
emits exactly one SOA_NONE, and that emission is at the apex owner — but
the handler field the run sets is error, fatal_error stays false, and
the call returns KNOT_EOK rather than KNOT_ESEMCHECK: check_soa writes
handler->error while sem_checks_process tests handler->fatal_error,
which no check in semantic-check.c ever sets. -/
theorem c1_missing_apex_soa :
    ((sem_checks_process extTriv zoneC1 .MANDATORY_ONLY ⟨false, false⟩ 0).2.trace.filter
        (fun e => e.code == SemError.SOA_NONE)).length = 1
    ∧ ((sem_checks_process extTriv zoneC1 .MANDATORY_ONLY ⟨false, false⟩ 0).2.trace.filter
        (fun e => e.code == SemError.SOA_NONE)).all (fun e => e.owner == apexC1.owner)
    ∧ (sem_checks_process extTriv zoneC1 .MANDATORY_ONLY ⟨false, false⟩ 0).2.handler.error = true
    ∧ (sem_checks_process extTriv zoneC1 .MANDATORY_ONLY ⟨false, false⟩ 0).2.handler.fatalError = false
    ∧ (sem_checks_process extTriv zoneC1 .MANDATORY_ONLY ⟨false, false⟩ 0).1 = KNOT_EOK
    ∧ KNOT_EOK ≠ KNOT_ESEMCHECK := by
  decide

theorem digest_sizes_agree_with_spec_table (dt : Nat) (h1 : 1 ≤ dt) (h4 : dt ≤ 4) :
    [0, 20, 32, 32, 48].getD dt 0 = dsSpecTable dt := by
  interval_cases dt <;> rfl

theorem dsRecLoop_spec (ext : SemExt) (owner : Rd)
    (hsup : ∀ t, ext.digestSupport t = true → 1 ≤ t ∧ t ≤ 4) :
    ∀ (l : List Rd) (st : St),
      dsRecLoop ext owner l st =
        ⟨st.handler, st.trace ++ (l.map (dsSpecEmission ext owner)).flatten⟩ := by
  intro l
  induction l with
  | nil => intro st; simp [dsRecLoop]
  | cons r restDs ih =>
    intro st
    by_cases hs : ext.digestSupport (ds_digest_type r) = true
    · obtain ⟨h1, h4⟩ := hsup _ hs
      have htab := digest_sizes_agree_with_spec_table _ h1 h4
      by_cases hlen : dsSpecTable (ds_digest_type r) = ds_digest_len r
      · simp only [dsRecLoop]
        rw [htab]
        simp [dsSpecEmission, hs, hlen, ih]
      · simp only [dsRecLoop]
        rw [htab]
        simp [dsSpecEmission, hs, hlen, ih, emit]
    · simp [dsRecLoop, dsSpecEmission, hs, ih, emit]

/-- Claim C6 (confirmed): under the libdnssec fact that only digest
types 1..4 are ever supported, check_ds appends, for each DS record in
order, DS_RDATA_ALG if the digest algorithm is unsupported, else exactly
one DS_RDATA_DIGLEN iff the actual digest length disagrees with the
table {SHA-1:20, SHA-256:32, GOST:32, SHA-384:48}, each emission
carrying the info string "(keytag tag)"; the handler flags are
untouched and the check returns KNOT_EOK. -/
theorem c6_ds_digest_table (ext : SemExt) (node : ZNode) (st : St) (dss : List Rd)
    (h : node_rdataset node RR_DS = some dss)
    (hsup : ∀ t, ext.digestSupport t = true → 1 ≤ t ∧ t ≤ 4) :
    check_ds ext node st =
      (KNOT_EOK,
       ⟨st.handler, st.trace ++ (dss.map (dsSpecEmission ext node.owner)).flatten⟩) := by
  simp [check_ds, h, dsRecLoop_spec ext node.owner hsup]

/-! ## Claims C4 and C5: check_submission.

Shared loop lemmas about the CDNSKEY and CDS scans. -/

theorem cdnskeyLoop_flag (dks : Option (List Rd)) (o : Rd) :
    ∀ (l : List Rd) (del : Bool) (st : St),
      (cdnskeyLoop dks o l del st).1 = (del || l.any isDeleteCdnskey) := by
  intro l
  induction l with
  | nil => intro del st; simp [cdnskeyLoop]
  | cons ck restCk ih =>
    intro del st
    simp only [cdnskeyLoop]
    split
    · rw [ih]; simp [*]
    · split <;> (rw [ih]; simp [*])

theorem cdnskeyLoop_trace (dks : Option (List Rd)) (o : Rd) :
    ∀ (l : List Rd) (del : Bool) (st : St) (e : Emission),
      e ∈ (cdnskeyLoop dks o l del st).2.trace →
      e ∈ st.trace ∨ e.code = .CDNSKEY_NO_DNSKEY := by
  intro l
  induction l with
  | nil => intro del st e he; simp [cdnskeyLoop] at he; exact Or.inl he
  | cons ck restCk ih =>
    intro del st e he
    by_cases hd : isDeleteCdnskey ck = true
    · simp only [cdnskeyLoop, hd, if_pos] at he
      exact ih _ _ _ he
    · simp only [Bool.not_eq_true] at hd
      simp only [cdnskeyLoop, hd, Bool.false_eq_true, if_false] at he
      rcases hsplit : (match dks with
        | some dksl => dksl.contains ck
        | none => false) with _ | _
      · rw [hsplit] at he
        simp only [Bool.false_eq_true, if_false] at he
        rcases ih _ _ _ he with h | h
        · simp only [emit, List.mem_append, List.mem_singleton] at h
          rcases h with h | h
          · exact Or.inl h
          · subst h; exact Or.inr rfl
        · exact Or.inr h
      · rw [hsplit] at he
        simp only [if_pos] at he
        exact ih _ _ _ he

theorem cdnskeyLoop_handler (dks : Option (List Rd)) (o : Rd) :
    ∀ (l : List Rd) (del : Bool) (st : St),
      (cdnskeyLoop dks o l del st).2.handler = st.handler := by
  intro l
  induction l with
  | nil => intro del st; simp [cdnskeyLoop]
  | cons ck restCk ih =>
    intro del st
    simp only [cdnskeyLoop]
    split
    · exact ih _ _
    · split <;> simp [ih, emit]

theorem cdsMatchLoop_error_source (ext : SemExt) (o : Rd) (cds : Rd) (dt : Nat) :
    ∀ (l : List Rd) (e : Int), cdsMatchLoop ext o cds dt l = .error e →
      ∃ ck ∈ l, ext.createDS o ck dt = .error e := by
  intro l
  induction l with
  | nil => intro e he; simp [cdsMatchLoop] at he
  | cons ck restCk ih =>
    intro e he
    simp only [cdsMatchLoop] at he
    split at he
    · obtain ⟨ck', hm, hc⟩ := ih _ he
      exact ⟨ck', List.mem_cons_of_mem _ hm, hc⟩
    · split at he
      · rename_i e' hda
        simp only [Except.error.injEq] at he
        subst he
        exact ⟨ck, List.mem_cons_self _ _, hda⟩
      · split at he
        · simp at he
        · obtain ⟨ck', hm, hc⟩ := ih _ he
          exact ⟨ck', List.mem_cons_of_mem _ hm, hc⟩

theorem cdsLoop_error_source (ext : SemExt) (o : Rd) (cks : List Rd) :
    ∀ (l : List Rd) (del : Bool) (st : St) (e : Int) (d : Bool) (st' : St),
      cdsLoop ext o cks l del st = (some e, d, st') →
      ∃ cs ∈ l, ∃ ck ∈ cks, ext.createDS o ck (ds_digest_type cs) = .error e := by
  intro l
  induction l with
  | nil => intro del st e d st' he; simp [cdsLoop] at he
  | cons cds restCds ih =>
    intro del st e d st' he
    simp only [cdsLoop] at he
    split at he
    · obtain ⟨cs, hm, rest⟩ := ih _ _ _ _ _ he
      exact ⟨cs, List.mem_cons_of_mem _ hm, rest⟩
    · split at he
      · rename_i e' hml
        simp only [Prod.mk.injEq, Option.some.injEq] at he
        obtain ⟨he1, _, _⟩ := he
        subst he1
        obtain ⟨ck, hmk, hc⟩ := cdsMatchLoop_error_source ext o cds _ cks _ hml
        exact ⟨cds, List.mem_cons_self _ _, ck, hmk, hc⟩
      · obtain ⟨cs, hm, rest⟩ := ih _ _ _ _ _ he
        exact ⟨cs, List.mem_cons_of_mem _ hm, rest⟩
      · obtain ⟨cs, hm, rest⟩ := ih _ _ _ _ _ he
        exact ⟨cs, List.mem_cons_of_mem _ hm, rest⟩

theorem cdsLoop_flag (ext : SemExt) (o : Rd) (cks : List Rd) :
    ∀ (l : List Rd) (del : Bool) (st : St) (d : Bool) (st' : St),
      cdsLoop ext o cks l del st = (none, d, st') →
      d = (del || l.any isDeleteCds) := by
  intro l
  induction l with
  | nil =>
    intro del st d st' he
    simp only [cdsLoop, Prod.mk.injEq] at he
    simp [← he.2.1]
  | cons cds restCds ih =>
    intro del st d st' he
    simp only [cdsLoop] at he
    split at he
    · rename_i hd
      rw [ih _ _ _ _ he]
      simp [hd]
    · rename_i hd
      rw [Bool.not_eq_true] at hd
      split at he
      · simp at he
      · rw [ih _ _ _ _ he]
        simp [hd]
      · rw [ih _ _ _ _ he]
        simp [hd]

theorem cdsLoop_trace (ext : SemExt) (o : Rd) (cks : List Rd) :
    ∀ (l : List Rd) (del : Bool) (st : St) (e : Emission),
      e ∈ (cdsLoop ext o cks l del st).2.2.trace →
      e ∈ st.trace ∨ e.code = .CDS_NOT_MATCH := by
  intro l
  induction l with
  | nil => intro del st e he; simp [cdsLoop] at he; exact Or.inl he
  | cons cds restCds ih =>
    intro del st e he
    simp only [cdsLoop] at he
    split at he
    · exact ih _ _ _ he
    · split at he
      · simp at he; exact Or.inl he
      · exact ih _ _ _ he
      · rcases ih _ _ _ he with h | h
        · simp only [emit, List.mem_append, List.mem_singleton] at h
          rcases h with h | h
          · exact Or.inl h
          · subst h; exact Or.inr rfl
        · exact Or.inr h

theorem cdsLoop_handler (ext : SemExt) (o : Rd) (cks : List Rd) :
    ∀ (l : List Rd) (del : Bool) (st : St),
      (cdsLoop ext o cks l del st).2.2.handler = st.handler := by
  intro l
  induction l with
  | nil => intro del st; simp [cdsLoop]
  | cons cds restCds ih =>
    intro del st
    simp only [cdsLoop]
    split
    · exact ih _ _
    · split
      · rfl
      · exact ih _ _
      · simp [ih, emit]

theorem isDeleteCds_iff (r : Rd) : isDeleteCds r = true ↔ r = [0, 0, 0, 0, 0] := by
  constructor
  · intro h
    simp only [isDeleteCds, Bool.and_eq_true, beq_iff_eq] at h
    obtain ⟨hl, ht⟩ := h
    have hr : r.take 5 = r := by rw [← hl]; exact List.take_length r
    rw [hr] at ht
    exact ht
  · intro h; subst h; rfl

theorem isDeleteCdnskey_iff (r : Rd) : isDeleteCdnskey r = true ↔ r = [0, 0, 3, 0, 0] := by
  constructor
  · intro h
    simp only [isDeleteCdnskey, Bool.and_eq_true, beq_iff_eq] at h
    obtain ⟨hl, ht⟩ := h
    have hr : r.take 5 = r := by rw [← hl]; exact List.take_length r
    rw [hr] at ht
    exact ht
  · intro h; subst h; rfl

theorem check_submission_present_invalid_delete (ext : SemExt) (zone : Zone)
    (node : ZNode) (cdss cdnskeys : List Rd) (st : St)
    (hstn : (⟨node.owner, .CDNSKEY_INVALID_DELETE, none⟩ : Emission) ∉ st.trace)
    (hno : ∀ o k d, ext.createDS o k d ≠ .error 0)
    (hret : (check_submission_present ext zone node cdss cdnskeys st).1 = KNOT_EOK) :
    ((⟨node.owner, .CDNSKEY_INVALID_DELETE, none⟩ : Emission) ∈
        (check_submission_present ext zone node cdss cdnskeys st).2.trace
      ↔ invalid_delete_condition cdss cdnskeys = true) := by
  unfold check_submission_present at hret ⊢
  simp only [] at hret ⊢
  generalize h1 : cdnskeyLoop (node_rdataset zone.apex RR_DNSKEY) zone.apex.owner cdnskeys false
      (if (node_rdataset zone.apex RR_DNSKEY).isNone then
        emit st node.owner .DNSKEY_NONE none else st) = p1 at hret ⊢
  obtain ⟨delCk, st2⟩ := p1
  have hflag1 : delCk = cdnskeys.any isDeleteCdnskey := by
    have := cdnskeyLoop_flag (node_rdataset zone.apex RR_DNSKEY) zone.apex.owner cdnskeys false
      (if (node_rdataset zone.apex RR_DNSKEY).isNone then
        emit st node.owner .DNSKEY_NONE none else st)
    rw [h1] at this
    simpa using this
  have hni2 : (⟨node.owner, .CDNSKEY_INVALID_DELETE, none⟩ : Emission) ∉ st2.trace := by
    intro hmem
    have hmem' :
        (⟨node.owner, .CDNSKEY_INVALID_DELETE, none⟩ : Emission) ∈
          (cdnskeyLoop (node_rdataset zone.apex RR_DNSKEY) zone.apex.owner cdnskeys false
            (if (node_rdataset zone.apex RR_DNSKEY).isNone then
              emit st node.owner .DNSKEY_NONE none else st)).2.trace := by
      rw [h1]; exact hmem
    rcases cdnskeyLoop_trace _ _ _ _ _ _ hmem' with h | h
    · rcases Decidable.em ((node_rdataset zone.apex RR_DNSKEY).isNone = true) with hd | hd
      · rw [if_pos hd] at h
        simp only [emit, List.mem_append, List.mem_singleton] at h
        rcases h with h | h
        · exact hstn h
        · exact Emission.noConfusion h (fun _ hc _ => SemError.noConfusion hc)
      · rw [if_neg hd] at h
        exact hstn h
    · exact SemError.noConfusion h
  generalize h2 : cdsLoop ext zone.apex.owner cdnskeys cdss false st2 = p2 at hret ⊢
  obtain ⟨ab, delCds, st3⟩ := p2
  cases ab with
  | some e =>
    exfalso
    have he : e = KNOT_EOK := hret
    obtain ⟨cs, _, ck, _, hc⟩ := cdsLoop_error_source ext zone.apex.owner cdnskeys
      cdss false st2 e delCds st3 h2
    rw [he] at hc
    exact hno _ _ _ hc
  | none =>
    have hflag2 : delCds = cdss.any isDeleteCds := by
      have := cdsLoop_flag ext zone.apex.owner cdnskeys cdss false st2 delCds st3 h2
      simpa using this
    have hni3 : (⟨node.owner, .CDNSKEY_INVALID_DELETE, none⟩ : Emission) ∉ st3.trace := by
      intro hmem
      have hmem' :
          (⟨node.owner, .CDNSKEY_INVALID_DELETE, none⟩ : Emission) ∈
            (cdsLoop ext zone.apex.owner cdnskeys cdss false st2).2.2.trace := by
        rw [h2]; exact hmem
      rcases cdsLoop_trace _ _ _ _ _ _ _ hmem' with h | h
      · exact hni2 h
      · exact SemError.noConfusion h
    subst hflag1 hflag2
    simp only [invalid_delete_condition]
    constructor
    · intro hmem
      by_contra hcond
      rw [Bool.not_eq_true] at hcond
      simp only [hcond] at hmem
      simp only [Bool.false_eq_true, if_false] at hmem
      split at hmem
      · simp only [emit, List.mem_append, List.mem_singleton] at hmem
        rcases hmem with h | h
        · exact hni3 h
        · exact Emission.noConfusion h (fun _ hc _ => SemError.noConfusion hc)
      · exact hni3 hmem
    · intro hcond
      simp only [hcond]
      split <;> simp [emit]

theorem cdnskeyLoop_clean (dksl : List Rd) (o : Rd) :
    ∀ (l : List Rd) (del : Bool) (st : St),
      (∀ ck ∈ l, isDeleteCdnskey ck = false) →
      (∀ ck ∈ l, dksl.contains ck = true) →
      cdnskeyLoop (some dksl) o l del st = (del, st) := by
  intro l
  induction l with
  | nil => intro del st _ _; rfl
  | cons ck restCk ih =>
    intro del st hnd hct
    have hd := hnd ck (List.mem_cons_self _ _)
    have hc := hct ck (List.mem_cons_self _ _)
    simp only [cdnskeyLoop, hd, Bool.false_eq_true, if_false, hc, if_pos]
    exact ih del st (fun x hx => hnd x (List.mem_cons_of_mem _ hx))
      (fun x hx => hct x (List.mem_cons_of_mem _ hx))

theorem cdsMatchLoop_not_nomatch (ext : SemExt) (o : Rd) (cds : Rd) (dt : Nat) :
    ∀ (l : List Rd),
      (∃ ck ∈ l, ext.keyFromRdata o ck = 0 ∧ ext.createDS o ck dt = Except.ok cds) →
      cdsMatchLoop ext o cds dt l ≠ .ok false := by
  intro l
  induction l with
  | nil => rintro ⟨ck, hm, _⟩ _; simp at hm
  | cons ck restCk ih =>
    rintro ⟨w, hw, hk, hc⟩ hcontra
    simp only [cdsMatchLoop] at hcontra
    split at hcontra
    · rename_i hkf
      rcases List.mem_cons.mp hw with hw | hw
      · subst hw; exact hkf hk
      · exact ih ⟨w, hw, hk, hc⟩ hcontra
    · rename_i hkf
      split at hcontra
      · exact Except.noConfusion hcontra
      · rename_i dsCalc hds
        split at hcontra
        · simp at hcontra
        · rename_i hne
          rcases List.mem_cons.mp hw with hw | hw
          · subst hw
            rw [hc] at hds
            have : dsCalc = cds := by
              have := Except.ok.inj hds
              exact this.symm
            subst this
            exact hne (by simp)
          · exact ih ⟨w, hw, hk, hc⟩ hcontra

theorem cdsLoop_clean (ext : SemExt) (o : Rd) (cks : List Rd) :
    ∀ (l : List Rd) (del : Bool) (st : St),
      (∀ cs ∈ l, isDeleteCds cs = false) →
      (∀ cs ∈ l, ∃ ck ∈ cks, ext.keyFromRdata o ck = 0 ∧
          ext.createDS o ck (ds_digest_type cs) = Except.ok cs) →
      (∃ e, cdsLoop ext o cks l del st = (some e, del, st)) ∨
        cdsLoop ext o cks l del st = (none, del, st) := by
  intro l
  induction l with
  | nil => intro del st _ _; exact Or.inr rfl
  | cons cds restCds ih =>
    intro del st hnd hmt
    have hd := hnd cds (List.mem_cons_self _ _)
    have hm := hmt cds (List.mem_cons_self _ _)
    simp only [cdsLoop, hd, Bool.false_eq_true, if_false]
    rcases hml : cdsMatchLoop ext o cds (ds_digest_type cds) cks with e | b
    · exact Or.inl ⟨e, rfl⟩
    · cases b with
      | true =>
        exact ih del st (fun x hx => hnd x (List.mem_cons_of_mem _ hx))
          (fun x hx => hmt x (List.mem_cons_of_mem _ hx))
      | false => exact absurd hml (cdsMatchLoop_not_nomatch ext o cds _ cks hm)

/-- Claim C5 (confirmed): the delete entries are exactly the literal
5-byte values 00 00 00 00 00 (CDS) and 00 00 03 00 00 (CDNSKEY); on a
completed run with both rrsets present, CDNSKEY_INVALID_DELETE is
emitted precisely when a delete entry is present and the single-delete
pairing is violated (the other side lacks a delete entry or the side
carrying it has more than the single entry); and in particular the zone
with one delete CDS and one non-delete CDNSKEY at the apex yields
CDNSKEY_INVALID_DELETE. -/
theorem c5_delete_pairing :
    (∀ r : Rd, isDeleteCds r = true ↔ r = [0, 0, 0, 0, 0])
    ∧ (∀ r : Rd, isDeleteCdnskey r = true ↔ r = [0, 0, 3, 0, 0])
    ∧ (∀ (ext : SemExt) (zone : Zone) (node : ZNode) (hdl : Handler)
        (cdss cdnskeys : List Rd),
        node_rdataset node RR_CDS = some cdss →
        node_rdataset node RR_CDNSKEY = some cdnskeys →
        (∀ o k d, ext.createDS o k d ≠ .error 0) →
        (check_submission ext zone node ⟨hdl, []⟩).1 = KNOT_EOK →
        ((⟨node.owner, .CDNSKEY_INVALID_DELETE, none⟩ : Emission) ∈
            (check_submission ext zone node ⟨hdl, []⟩).2.trace
          ↔ invalid_delete_condition cdss cdnskeys = true))
    ∧ check_submission extTriv zoneDel zoneDel.apex ⟨⟨false, false⟩, []⟩ =
        (KNOT_EOK,
         ⟨⟨false, false⟩, [⟨apexDel.owner, .CDNSKEY_INVALID_DELETE, none⟩]⟩) := by
  refine ⟨isDeleteCds_iff, isDeleteCdnskey_iff, ?_, by decide⟩
  intro ext zone node hdl cdss cdnskeys hcds hcdn hno hret
  have hred : check_submission ext zone node ⟨hdl, []⟩ =
      check_submission_present ext zone node cdss cdnskeys ⟨hdl, []⟩ := by
    simp [check_submission, hcds, hcdn]
  rw [hred] at hret ⊢
  exact check_submission_present_invalid_delete ext zone node cdss cdnskeys
    ⟨hdl, []⟩ (by simp) hno hret

/-- Witness for C5: the law's middle conjunct applied at the concrete
delete-CDS scenario, all hypotheses discharged there. -/
theorem c5_delete_pairing_witness :
    (⟨apexDel.owner, SemError.CDNSKEY_INVALID_DELETE, none⟩ : Emission) ∈
      (check_submission extTriv zoneDel apexDel ⟨⟨false, false⟩, []⟩).2.trace := by
  have h := c5_delete_pairing.2.2.1 extTriv zoneDel apexDel ⟨false, false⟩
    [[0, 0, 0, 0, 0]] [[1, 1, 1]] (by decide) (by decide)
    (fun o k d => by simp [extTriv]) (by decide)
  exact h.mpr (by decide)

/-- Claim C4 (counterexample): at the concrete apex carrying one delete
CDS, one non-delete CDNSKEY and a byte-identical DNSKEY, the submission
law's hypotheses all hold — every non-delete CDNSKEY byte-matches some
apex DNSKEY, every non-delete CDS matches the DS computed from some
CDNSKEY with its digest type (vacuously), and count(CDS) is at least
count(CDNSKEY) — yet check_submission emits the submission error
CDNSKEY_INVALID_DELETE, so the law as stated is false. -/
theorem c4_submission_law_counterexample :
    (∀ ck ∈ (node_rdataset apexDel RR_CDNSKEY).getD [],
        isDeleteCdnskey ck = false → ck ∈ (node_rdataset apexDel RR_DNSKEY).getD [])
    ∧ (∀ cs ∈ (node_rdataset apexDel RR_CDS).getD [],
        isDeleteCds cs = false →
        ∃ ck ∈ (node_rdataset apexDel RR_CDNSKEY).getD [],
          extTriv.keyFromRdata apexDel.owner ck = 0 ∧
          extTriv.createDS apexDel.owner ck (ds_digest_type cs) = Except.ok cs)
    ∧ ((node_rdataset apexDel RR_CDNSKEY).getD []).length ≤
        ((node_rdataset apexDel RR_CDS).getD []).length
    ∧ (⟨apexDel.owner, SemError.CDNSKEY_INVALID_DELETE, none⟩ : Emission) ∈
        (check_submission extTriv zoneDel apexDel ⟨⟨false, false⟩, []⟩).2.trace := by
  decide

/-- Claim C4 (amended, confirmed): with both rrsets present at the apex,
a DNSKEY rrset present, and no delete entry on either side, the
submission law holds: if every CDNSKEY byte-matches some apex DNSKEY,
every CDS equals the DS computed from some CDNSKEY with the CDS's digest
type, and count(CDS) is at least count(CDNSKEY), then check_submission
leaves the handler state and emission trace untouched — in particular
it emits no submission error code. -/
theorem c4_amended_submission_law (ext : SemExt) (zone : Zone) (st : St)
    (cdss cdnskeys dks : List Rd)
    (hcds : node_rdataset zone.apex RR_CDS = some cdss)
    (hcdn : node_rdataset zone.apex RR_CDNSKEY = some cdnskeys)
    (hdk : node_rdataset zone.apex RR_DNSKEY = some dks)
    (hndC : ∀ cs ∈ cdss, isDeleteCds cs = false)
    (hndK : ∀ ck ∈ cdnskeys, isDeleteCdnskey ck = false)
    (h1 : ∀ ck ∈ cdnskeys, dks.contains ck = true)
    (h2 : ∀ cs ∈ cdss, ∃ ck ∈ cdnskeys, ext.keyFromRdata zone.apex.owner ck = 0 ∧
            ext.createDS zone.apex.owner ck (ds_digest_type cs) = Except.ok cs)
    (h3 : cdnskeys.length ≤ cdss.length) :
    (check_submission ext zone zone.apex st).2 = st := by
  have hred : check_submission ext zone zone.apex st =
      check_submission_present ext zone zone.apex cdss cdnskeys st := by
    simp [check_submission, hcds, hcdn]
  rw [hred]
  unfold check_submission_present
  simp only [hdk, Option.isNone_some, Bool.false_eq_true, if_false]
  rw [cdnskeyLoop_clean dks zone.apex.owner cdnskeys false st hndK h1]
  rcases cdsLoop_clean ext zone.apex.owner cdnskeys cdss false st hndC h2 with
    ⟨e, habort⟩ | hok
  · rw [habort]
  · rw [hok]
    simp [Nat.not_lt.mpr h3]

/-- Witness for the amended C4: a concrete apex with one non-delete CDS
that the collaborator's DS computation reproduces, one matching CDNSKEY
and DNSKEY; the theorem applies and the check emits nothing. -/
theorem c4_amended_submission_law_witness :
    (check_submission extOkDs zoneOkDs zoneOkDs.apex ⟨⟨false, false⟩, []⟩).2 =
      ⟨⟨false, false⟩, []⟩ := by
  exact c4_amended_submission_law extOkDs zoneOkDs ⟨⟨false, false⟩, []⟩
    [[9, 9]] [[1, 1, 1]] [[1, 1, 1]] (by decide) (by decide) (by decide)
    (by decide) (by decide) (by decide) (by decide) (by decide)

/-- Witness for C6: at the concrete DS record with keytag 12345, digest
type 2 and digest length 31, the theorem applies and yields the single
DS_RDATA_DIGLEN emission with info "(keytag 12345)". -/
theorem c6_ds_digest_table_witness :
    check_ds extC6 apexC6 ⟨⟨false, false⟩, []⟩ =
      (KNOT_EOK,
       ⟨⟨false, false⟩, [⟨apexC6.owner, .DS_RDATA_DIGLEN, some "(keytag 12345)"⟩]⟩) := by
  have h := c6_ds_digest_table extC6 apexC6 ⟨⟨false, false⟩, []⟩ [dsRecC6]
    (by decide)
    (fun t ht => by
      have : t = 2 := by simpa [extC6, extTriv] using ht
      omega)
  exact h.trans (by decide)

/-! ## Claim C10. -/

/-- Claim C10 (confirmed): stream data arriving for a stream id other
than the context's current stream id makes recv_stream_data succeed and
leave the context entirely unchanged: nothing is appended to the
reassembly buffer, no completed message is produced, and the
last-activity timestamp is not updated. -/
theorem c10_foreign_stream_ignored (tcp : TcpUpdateFn) (now : Nat) (ctx : QuicCtx)
    (sid : Int) (data : List Nat) (h : sid ≠ ctx.stream.id) :
    recv_stream_data_cb tcp now ctx sid data = (0, ctx) := by
  simp [recv_stream_data_cb, h]

/-- Witness for C10: data for stream 8 while the current stream is 0. -/
theorem c10_foreign_stream_ignored_witness :
    recv_stream_data_cb tcpTriv 5 ctxConnected 8 [1, 2] = (0, ctxConnected) :=
  c10_foreign_stream_ignored tcpTriv 5 ctxConnected 8 [1, 2] (by decide)

/-! ## Claim C8. -/

/-- Claim C8 (confirmed): stream_open rejects every stream id not
congruent to 0 mod 4 by recording an application-class close with code
DOQ_PROTOCOL_ERROR and reason "Server can't open streams." and failing
the callback, which makes quic_recv return KNOT_NET_ERECV with that
close recorded; ids congruent to 0 mod 4 are accepted and last_error is
not changed by the receive path for them. -/
theorem c8_stream_open_rejection :
    (∀ (ctx : QuicCtx) (i : Int), i.tmod 4 ≠ 0 →
      stream_open_cb ctx i =
        (NGTCP2_ERR_CALLBACK_FAILURE,
         set_application_error ctx DOQ_PROTOCOL_ERROR "Server can\x27t open streams."))
    ∧ (∀ (ctx : QuicCtx) (i : Int), i.tmod 4 = 0 →
        stream_open_cb ctx i = (KNOT_EOK, ctx))
    ∧ (∀ (tcp : TcpUpdateFn) (ctx : QuicCtx) (i nr rr : Int) (e : Nat) (now : Nat),
        0 < nr → i.tmod 4 ≠ 0 →
        quic_recv tcp ⟨nr, 0, e, 0, [.streamOpen i], rr⟩ now ctx =
          (KNOT_NET_ERECV,
           set_application_error { ctx with ecn := e } DOQ_PROTOCOL_ERROR
             "Server can\x27t open streams."))
    ∧ (∀ (tcp : TcpUpdateFn) (ctx : QuicCtx) (i nr rr : Int) (e : Nat) (now : Nat),
        0 < nr → i.tmod 4 = 0 →
        ((quic_recv tcp ⟨nr, 0, e, 0, [.streamOpen i], rr⟩ now ctx).2).lastErr =
          ctx.lastErr) := by
  have hcb : ∀ (ctx : QuicCtx) (i : Int), i.tmod 4 ≠ 0 →
      stream_open_cb ctx i =
        (NGTCP2_ERR_CALLBACK_FAILURE,
         set_application_error ctx DOQ_PROTOCOL_ERROR "Server can\x27t open streams.") := by
    intro ctx i h
    simp [stream_open_cb, h]
  have hcb0 : ∀ (ctx : QuicCtx) (i : Int), i.tmod 4 = 0 →
      stream_open_cb ctx i = (KNOT_EOK, ctx) := by
    intro ctx i h
    simp [stream_open_cb, h]
  refine ⟨hcb, hcb0, ?_, ?_⟩
  · intro tcp ctx i nr rr e now hn hi
    have h0 : ¬ nr ≤ 0 := by omega
    have hdrop : nr ≠ NGTCP2_ERR_DROP_CONN := by
      simp only [NGTCP2_ERR_DROP_CONN]; omega
    have hfatal : ngtcp2_err_is_fatal nr = false := by
      simp only [ngtcp2_err_is_fatal, NGTCP2_ERR_FATAL, decide_eq_false_iff_not]
      omega
    simp [quic_recv, h0, runRecvEvents, applyCbEvent, hcb _ _ hi, hdrop, hfatal,
          NGTCP2_ERR_CALLBACK_FAILURE]
  · intro tcp ctx i nr rr e now hn hi
    have h0 : ¬ nr ≤ 0 := by omega
    have hdrop : nr ≠ NGTCP2_ERR_DROP_CONN := by
      simp only [NGTCP2_ERR_DROP_CONN]; omega
    have hfatal : ngtcp2_err_is_fatal nr = false := by
      simp only [ngtcp2_err_is_fatal, NGTCP2_ERR_FATAL, decide_eq_false_iff_not]
      omega
    by_cases hr : rr = 0 <;>
      simp [quic_recv, h0, runRecvEvents, applyCbEvent, hcb0 _ _ hi, hdrop, hfatal,
            KNOT_EOK, hr]

/-- Witness for C8: the test double opens stream 1 while 100 bytes were
just received; the driver returns NET_ERECV and records the application
close; stream 4 is accepted with last_error untouched. -/
theorem c8_stream_open_rejection_witness :
    quic_recv tcpTriv ⟨100, 0, 2, 0, [.streamOpen 1], 0⟩ 5 ctxConnected =
      (KNOT_NET_ERECV,
       set_application_error { ctxConnected with ecn := 2 } DOQ_PROTOCOL_ERROR
         "Server can\x27t open streams.")
    ∧ ((quic_recv tcpTriv ⟨100, 0, 2, 0, [.streamOpen 4], 0⟩ 5 ctxConnected).2).lastErr =
        ctxConnected.lastErr :=
  ⟨c8_stream_open_rejection.2.2.1 tcpTriv ctxConnected 1 100 0 2 5 (by decide) (by decide),
   c8_stream_open_rejection.2.2.2 tcpTriv ctxConnected 4 100 0 2 5 (by decide) (by decide)⟩

/-! ## Claim C2. -/

/-- Claim C2 (code_bug evidence): quic_recv compares nwrite — the
recvmsg byte count — rather than the read_pkt status against
NGTCP2_ERR_DROP_CONN and ngtcp2_err_is_fatal.  After a 100-byte
datagram, a read_pkt status of NGTCP2_ERR_DROP_CONN leaves the state
CONNECTED instead of CLOSED, and a fatal status (NGTCP2_ERR_NOMEM)
leaves last_error unchanged instead of recording a transport close; both
still return KNOT_NET_ERECV, and a zero status returns KNOT_EOK. -/
theorem c2_recv_error_handling_dead :
    quic_recv tcpTriv ⟨100, 0, 2, 0, [], NGTCP2_ERR_DROP_CONN⟩ 5 ctxConnected =
      (KNOT_NET_ERECV, { ctxConnected with ecn := 2 })
    ∧ ({ ctxConnected with ecn := 2 } : QuicCtx).state = ConnState.CONNECTED
    ∧ ({ ctxConnected with ecn := 2 } : QuicCtx).lastErr = ctxConnected.lastErr
    ∧ quic_recv tcpTriv ⟨100, 0, 2, 0, [], NGTCP2_ERR_NOMEM⟩ 5 ctxConnected =
        (KNOT_NET_ERECV, { ctxConnected with ecn := 2 })
    ∧ ngtcp2_err_is_fatal NGTCP2_ERR_NOMEM = true
    ∧ quic_recv tcpTriv ⟨100, 0, 2, 0, [], 0⟩ 5 ctxConnected =
        (KNOT_EOK, { ctxConnected with ecn := 2 }) := by
  decide

/-! ## Claim C9. -/

/-- Claim C9 (confirmed): when the next completed message exceeds the
buffer capacity, quic_respcpy returns KNOT_ENOMEM with the context
unchanged (iterator not advanced, nothing freed), so a retry with a
large enough buffer returns that same message with its length as the
result, and quic_recv_dns_response propagates the ENOMEM unchanged. -/
theorem c9_respcpy_enomem_preserves :
    (∀ (ctx : QuicCtx) (msgs : List (List Nat)) (bufLen : Nat),
      ctx.stream.outStorage = some msgs →
      ctx.stream.outStorageIt < ctx.stream.outStorageLen →
      bufLen < (msgs.getD ctx.stream.outStorageIt []).length →
      quic_respcpy ctx bufLen = (KNOT_ENOMEM, ctx, none))
    ∧ (∀ (ctx : QuicCtx) (msgs : List (List Nat)) (bufLen : Nat),
      ctx.stream.outStorage = some msgs →
      ctx.stream.outStorageIt < ctx.stream.outStorageLen →
      (msgs.getD ctx.stream.outStorageIt []).length ≤ bufLen →
      (quic_respcpy ctx bufLen).1 = ((msgs.getD ctx.stream.outStorageIt []).length : Int)
      ∧ (quic_respcpy ctx bufLen).2.2 = some (msgs.getD ctx.stream.outStorageIt []))
    ∧ (∀ (tcp : TcpUpdateFn) (iters : List DriverIter) (ctx : QuicCtx)
        (msgs : List (List Nat)) (bufLen : Nat),
      ctx.tls.isSome →
      ctx.stream.outStorage = some msgs →
      ctx.stream.outStorageIt < ctx.stream.outStorageLen →
      bufLen < (msgs.getD ctx.stream.outStorageIt []).length →
      quic_recv_dns_response tcp iters ctx bufLen = some (KNOT_ENOMEM, ctx, none)) := by
  have hnomem : ∀ (ctx : QuicCtx) (msgs : List (List Nat)) (bufLen : Nat),
      ctx.stream.outStorage = some msgs →
      ctx.stream.outStorageIt < ctx.stream.outStorageLen →
      bufLen < (msgs.getD ctx.stream.outStorageIt []).length →
      quic_respcpy ctx bufLen = (KNOT_ENOMEM, ctx, none) := by
    intro ctx msgs bufLen hs hit hlen
    simp only [quic_respcpy, hs]
    rw [if_pos hit, if_pos hlen]
  refine ⟨hnomem, ?_, ?_⟩
  · intro ctx msgs bufLen hs hit hlen
    have hlt : ¬ bufLen < (msgs.getD ctx.stream.outStorageIt []).length := by omega
    simp only [quic_respcpy, hs]
    rw [if_pos hit, if_neg hlt]
    exact ⟨rfl, rfl⟩
  · intro tcp iters ctx msgs bufLen htls hs hit hlen
    have h1 : ctx.tls.isNone = false := by
      cases h : ctx.tls
      · rw [h] at htls; exact absurd htls (by simp)
      · rfl
    simp [quic_recv_dns_response, h1, hnomem ctx msgs bufLen hs hit hlen, KNOT_ENOMEM]

/-- Witness for C9: a 3-byte queued response against a 2-byte buffer
yields ENOMEM with nothing consumed; the retry with capacity 10 returns
the same 3 bytes and result 3; the public receive operation propagates
the ENOMEM. -/
theorem c9_respcpy_enomem_preserves_witness :
    quic_respcpy ctxQueued 2 = (KNOT_ENOMEM, ctxQueued, none)
    ∧ (quic_respcpy ctxQueued 10).1 = (3 : Int)
    ∧ (quic_respcpy ctxQueued 10).2.2 = some [7, 7, 7]
    ∧ quic_recv_dns_response tcpTriv [] ctxQueued 2 = some (KNOT_ENOMEM, ctxQueued, none) := by
  refine ⟨c9_respcpy_enomem_preserves.1 ctxQueued [[7, 7, 7]] 2 (by decide) (by decide) (by decide),
          ?_, ?_,
          c9_respcpy_enomem_preserves.2.2 tcpTriv [] ctxQueued [[7, 7, 7]] 2 (by decide)
            (by decide) (by decide) (by decide)⟩
  · exact ((c9_respcpy_enomem_preserves.2.1 ctxQueued [[7, 7, 7]] 10 (by decide) (by decide)
      (by decide)).1).trans (by decide)
  · exact ((c9_respcpy_enomem_preserves.2.1 ctxQueued [[7, 7, 7]] 10 (by decide) (by decide)
      (by decide)).2).trans (by decide)

/-! ## Claim C3. -/

theorem recv_tail_state (r n : Int) (hdrop : n ≠ NGTCP2_ERR_DROP_CONN) (ctx' : QuicCtx) :
    ((if r ≠ 0 then
        if n = NGTCP2_ERR_DROP_CONN then (KNOT_NET_ERECV, { ctx' with state := ConnState.CLOSED })
        else if ngtcp2_err_is_fatal n then (KNOT_NET_ERECV, set_transport_error ctx' n "")
        else (KNOT_NET_ERECV, ctx')
      else (KNOT_EOK, ctx')).2).state = ctx'.state := by
  by_cases hr : r ≠ 0
  · rw [if_pos hr, if_neg hdrop]
    split <;> rfl
  · rw [if_neg hr]

/-- Claim C3 (counterexample): send_query invoked after close is not
rejected with EINVAL — on a closed context whose deadline has passed it
proceeds into the driver loop and returns KNOT_NET_ETIMEOUT. -/
theorem c3_closed_not_einval_counterexample :
    (quic_ctx_close ctxConnected).state = ConnState.CLOSED
    ∧ (quic_send_dns_query tcpTriv [⟨10000000000, [], 0, 0, ⟨100, 0, 2, 0, [], 0⟩⟩]
        (quic_ctx_close ctxConnected) [0, 1]).map (fun r => r.1) =
      some KNOT_NET_ETIMEOUT
    ∧ KNOT_NET_ETIMEOUT ≠ KNOT_EINVAL := by
  decide

/-- Claim C3 (amended): the state is assigned only forward-looking
values — OPENING at init, CONNECTED by the handshake-confirmed
callback, CLOSED by close — and quic_recv itself never changes it (its
DROP_CONN transition is unreachable since it tests the positive recvmsg
byte count): after a received datagram the state is exactly whatever
the delivered callbacks left.  The operations perform no state check:
recv_response returns EINVAL exactly from the null-argument guard (here
the null tls pointer), while a post-close send_query proceeds into the
driver loop (returning NET_ETIMEOUT at the deadline) and a post-close
recv_response drains the queued message as usual. -/
theorem c3_amended_state_and_guards :
    (∀ (tls : TlsInfo) (now : Nat), (quic_ctx_init tls now).state = ConnState.OPENING)
    ∧ (∀ ctx : QuicCtx, (quic_ctx_close ctx).state = ConnState.CLOSED)
    ∧ (∀ ctx : QuicCtx, ((handshake_confirmed_cb ctx).2).state = ConnState.CONNECTED)
    ∧ (∀ (tcp : TcpUpdateFn) (env : RecvEnv) (now : Nat) (ctx : QuicCtx),
        ((quic_recv tcp env now ctx).2).state =
          if 0 < env.nread ∧ ¬(env.ecn = 0 ∧ env.ecnErrno ≠ 0) then
            ((runRecvEvents tcp now { ctx with ecn := env.ecn } env.events).2).state
          else ctx.state)
    ∧ (∀ (tcp : TcpUpdateFn) (iters : List DriverIter) (ctx : QuicCtx) (bufLen : Nat),
        ctx.tls = none →
        quic_recv_dns_response tcp iters ctx bufLen = some (KNOT_EINVAL, ctx, none))
    ∧ (quic_send_dns_query tcpTriv [⟨10000000000, [], 0, 0, ⟨100, 0, 2, 0, [], 0⟩⟩]
        (quic_ctx_close ctxConnected) [0, 1]).map (fun r => r.1) =
      some KNOT_NET_ETIMEOUT
    ∧ (quic_recv_dns_response tcpTriv [] (quic_ctx_close ctxQueued) 10).map
        (fun r => (r.1, r.2.2)) = some ((3 : Int), some [7, 7, 7]) := by
  refine ⟨fun tls now => rfl, fun ctx => rfl, fun ctx => rfl, ?_, ?_, by decide, by decide⟩
  · intro tcp env now ctx
    by_cases h0 : env.nread ≤ 0
    · rw [if_neg (fun hc => absurd hc.1 (not_lt.mpr h0))]
      simp only [quic_recv]
      rw [if_pos h0]
    · by_cases hg : env.ecn = 0 ∧ env.ecnErrno ≠ 0
      · rw [if_neg (fun hc => hc.2 hg)]
        simp only [quic_recv]
        rw [if_neg h0, if_pos hg]
      · rw [if_pos ⟨by omega, hg⟩]
        simp only [quic_recv]
        rw [if_neg h0, if_neg hg]
        rcases hre : runRecvEvents tcp now { ctx with ecn := env.ecn } env.events with
          ⟨cbRet, ctx'⟩
        have hdrop : env.nread ≠ NGTCP2_ERR_DROP_CONN := by
          simp only [NGTCP2_ERR_DROP_CONN]; omega
        exact recv_tail_state _ env.nread hdrop ctx'
  · intro tcp iters ctx bufLen htls
    simp [quic_recv_dns_response, htls]

/-- Witness for the amended C3: the concrete assignments, the unchanged
state across a DROP_CONN receive, and the EINVAL from the null-tls
guard. -/
theorem c3_amended_state_and_guards_witness :
    (quic_ctx_init tlsW 0).state = ConnState.OPENING
    ∧ (quic_ctx_close ctxConnected).state = ConnState.CLOSED
    ∧ ((handshake_confirmed_cb ctxInit0).2).state = ConnState.CONNECTED
    ∧ ((quic_recv tcpTriv ⟨100, 0, 2, 0, [], NGTCP2_ERR_DROP_CONN⟩ 5 ctxConnected).2).state =
        ConnState.CONNECTED
    ∧ quic_recv_dns_response tcpTriv [] ctxNoTls 5 = some (KNOT_EINVAL, ctxNoTls, none) := by
  refine ⟨c3_amended_state_and_guards.1 tlsW 0,
          c3_amended_state_and_guards.2.1 ctxConnected,
          c3_amended_state_and_guards.2.2.1 ctxInit0,
          ?_,
          c3_amended_state_and_guards.2.2.2.2.1 tcpTriv [] ctxNoTls 5 rfl⟩
  exact (c3_amended_state_and_guards.2.2.2.1 tcpTriv
    ⟨100, 0, 2, 0, [], NGTCP2_ERR_DROP_CONN⟩ 5 ctxConnected).trans (by decide)

/-! ## Claim C7. -/

theorem quic_send_data_nil (ctx : QuicCtx) (datav : List (List Nat)) :
    quic_send_data ctx [] datav = (none, []) := rfl

theorem quic_send_data_calls_head (ctx : QuicCtx) (s : WritevStep) (ss : List WritevStep)
    (datav : List (List Nat)) :
    ((quic_send_data ctx (s :: ss) datav).2).head? =
      some ⟨if datav.isEmpty then -1 else ctx.stream.id, !datav.isEmpty, datav⟩ := by
  unfold quic_send_data
  repeat' split
  all_goals simp

theorem send_query_loop_ok_sent_zero (tcp : TcpUpdateFn) (wait : Nat) :
    ∀ (iters : List DriverIter) (ctx : QuicCtx) (pdatav : List (List Nat))
      (tr : List WritevCall) (ctx' : QuicCtx) (tr' : List WritevCall),
      (∀ it ∈ iters, it.pollRet < 0 → it.pollErrno ≠ 0) →
      send_query_loop tcp wait iters ctx pdatav tr = some (KNOT_EOK, ctx', tr') →
      ctx'.stream.sent = 0 := by
  intro iters
  induction iters with
  | nil =>
    intro ctx pdatav tr ctx' tr' _ he
    unfold send_query_loop at he
    split at he
    · rename_i hs
      simp only [Option.some.injEq, Prod.mk.injEq] at he
      obtain ⟨-, h2, -⟩ := he
      rw [← h2]
      exact hs
    · exact Option.noConfusion he
  | cons it restIt ih =>
    intro ctx pdatav tr ctx' tr' hpoll he
    unfold send_query_loop at he
    split at he
    · rename_i hs
      simp only [Option.some.injEq, Prod.mk.injEq] at he
      obtain ⟨-, h2, -⟩ := he
      rw [← h2]
      exact hs
    · split at he
      · rename_i heq
        exact absurd heq (by simp)
      · rename_i itx restx heq
        injection heq with heq1 heq2
        subst heq1
        subst heq2
        split at he
        · simp only [Option.some.injEq, Prod.mk.injEq] at he
          obtain ⟨hcode, -, -⟩ := he
          exact absurd hcode (by decide)
        · split at he
          · exact Option.noConfusion he
          · rename_i retx ctxm callsx hsd
            simp only [] at he
            split at he
            · rename_i hret
              simp only [Option.some.injEq, Prod.mk.injEq] at he
              obtain ⟨hcode, -, -⟩ := he
              exact absurd hcode hret
            · rename_i hret
              split at he
              · rename_i hp
                simp only [Option.some.injEq, Prod.mk.injEq] at he
                obtain ⟨hcode, -, -⟩ := he
                have hz : it.pollErrno = 0 := by
                  simp only [knot_map_errno, KNOT_EOK] at hcode
                  omega
                exact absurd hz (hpoll it (List.mem_cons_self _ _) hp)
              · rename_i hp
                split at he
                · exact ih ctxm [] (tr ++ callsx) ctx' tr'
                    (fun x hx => hpoll x (List.mem_cons_of_mem _ hx)) he
                · split at he
                  · rename_i hrv
                    simp only [Option.some.injEq, Prod.mk.injEq] at he
                    obtain ⟨hcode, -, -⟩ := he
                    exact absurd hcode hrv
                  · exact ih (quic_recv tcp it.recvEnv it.now ctxm).2 [] (tr ++ callsx)
                      ctx' tr' (fun x hx => hpoll x (List.mem_cons_of_mem _ hx)) he

theorem send_query_loop_trace_ext (tcp : TcpUpdateFn) (wait : Nat) :
    ∀ (iters : List DriverIter) (ctx : QuicCtx) (pdatav : List (List Nat))
      (tr : List WritevCall) (r : Int) (ctx' : QuicCtx) (tr' : List WritevCall),
      send_query_loop tcp wait iters ctx pdatav tr = some (r, ctx', tr') →
      ∃ ext, tr' = tr ++ ext ∧ (ext = [] ∨ ext.head? =
        some ⟨(if pdatav.isEmpty then -1 else ctx.stream.id), !pdatav.isEmpty, pdatav⟩) := by
  intro iters
  induction iters with
  | nil =>
    intro ctx pdatav tr r ctx' tr' he
    unfold send_query_loop at he
    split at he
    · simp only [Option.some.injEq, Prod.mk.injEq] at he
      obtain ⟨-, -, h3⟩ := he
      exact ⟨[], by simp [h3], Or.inl rfl⟩
    · exact Option.noConfusion he
  | cons it restIt ih =>
    intro ctx pdatav tr r ctx' tr' he
    unfold send_query_loop at he
    split at he
    · simp only [Option.some.injEq, Prod.mk.injEq] at he
      obtain ⟨-, -, h3⟩ := he
      exact ⟨[], by simp [h3], Or.inl rfl⟩
    · split at he
      · rename_i heq
        exact absurd heq (by simp)
      · rename_i itx restx heq
        injection heq with heq1 heq2
        subst heq1
        subst heq2
        split at he
        · simp only [Option.some.injEq, Prod.mk.injEq] at he
          obtain ⟨-, -, h3⟩ := he
          exact ⟨[], by simp [h3], Or.inl rfl⟩
        · split at he
          · exact Option.noConfusion he
          · rename_i retx ctxm callsx hsd
            simp only [] at he
            have hsteps : ∃ s ss, it.writeSteps = s :: ss := by
              cases hws : it.writeSteps with
              | nil =>
                rw [hws] at hsd
                rw [quic_send_data_nil] at hsd
                exact absurd hsd (by simp)
              | cons s ss => exact ⟨s, ss, rfl⟩
            obtain ⟨s, ss, hws⟩ := hsteps
            have hhead : callsx.head? =
                some ⟨(if pdatav.isEmpty then -1 else ctx.stream.id),
                  !pdatav.isEmpty, pdatav⟩ := by
              have hh := quic_send_data_calls_head ctx s ss pdatav
              rw [← hws, hsd] at hh
              exact hh
            obtain ⟨c0, cs, hcalls⟩ : ∃ c0 cs, callsx = c0 :: cs := by
              cases callsx with
              | nil => exact absurd hhead (by simp)
              | cons c0 cs => exact ⟨c0, cs, rfl⟩
            have hc0 : c0 = ⟨(if pdatav.isEmpty then -1 else ctx.stream.id),
                !pdatav.isEmpty, pdatav⟩ := by
              rw [hcalls] at hhead
              exact Option.some.inj hhead
            split at he
            · simp only [Option.some.injEq, Prod.mk.injEq] at he
              obtain ⟨-, -, h3⟩ := he
              exact ⟨callsx, h3.symm, Or.inr (by rw [hhead])⟩
            · split at he
              · simp only [Option.some.injEq, Prod.mk.injEq] at he
                obtain ⟨-, -, h3⟩ := he
                exact ⟨callsx, h3.symm, Or.inr (by rw [hhead])⟩
              · split at he
                · obtain ⟨ext2, hext2, -⟩ := ih ctxm [] (tr ++ callsx) r ctx' tr' he
                  refine ⟨callsx ++ ext2, by rw [hext2, List.append_assoc], Or.inr ?_⟩
                  rw [hcalls, hc0]
                  simp
                · split at he
                  · simp only [Option.some.injEq, Prod.mk.injEq] at he
                    obtain ⟨-, -, h3⟩ := he
                    exact ⟨callsx, h3.symm, Or.inr (by rw [hhead])⟩
                  · obtain ⟨ext2, hext2, -⟩ :=
                      ih (quic_recv tcp it.recvEnv it.now ctxm).2 [] (tr ++ callsx)
                        r ctx' tr' he
                    refine ⟨callsx ++ ext2, by rw [hext2, List.append_assoc], Or.inr ?_⟩
                    rw [hcalls, hc0]
                    simp

/-- Claim C7 (confirmed): send_query frames the query as the two-element
vector [two-byte network-order length][message] passed with the FIN flag
on the current stream (the first library write call of any run is
exactly that), bumps the in-flight counter by len+2 before the driver
loop (observed through an immediate-deadline run), the acked-offset
callback subtracts each acked length for the current stream, and a run
that returns OK ends with zero bytes in flight (under the POSIX fact
that a failed poll leaves a nonzero errno). -/
theorem c7_framing_and_inflight :
    (∀ (ctx : QuicCtx) (i : Int) (dlen : Nat),
      i = ctx.stream.id → dlen ≤ ctx.stream.sent → ctx.stream.sent < U64MOD →
      ((acked_stream_data_offset_cb ctx i dlen).2).stream.sent = ctx.stream.sent - dlen)
    ∧ (∀ (tcp : TcpUpdateFn) (iters : List DriverIter) (ctx : QuicCtx) (buf : List Nat)
        (ctx' : QuicCtx) (tr' : List WritevCall),
      (∀ it ∈ iters, it.pollRet < 0 → it.pollErrno ≠ 0) →
      quic_send_dns_query tcp iters ctx buf = some (KNOT_EOK, ctx', tr') →
      ctx'.stream.sent = 0)
    ∧ (∀ (tcp : TcpUpdateFn) (iters : List DriverIter) (ctx : QuicCtx) (buf : List Nat)
        (r : Int) (ctx' : QuicCtx) (tr' : List WritevCall),
      quic_send_dns_query tcp iters ctx buf = some (r, ctx', tr') →
      tr' = [] ∨ tr'.head? = some ⟨ctx.stream.id, true,
        [[(buf.length % 65536) / 256, (buf.length % 65536) % 256], buf]⟩)
    ∧ (∀ (tcp : TcpUpdateFn) (it : DriverIter) (iters : List DriverIter)
        (ctx : QuicCtx) (buf : List Nat),
      quic_timeout ctx.timestamp (ctx.tls.getD ⟨0, 0⟩).wait it.now = true →
      u64add ctx.stream.sent (buf.length + 2) ≠ 0 →
      quic_send_dns_query tcp (it :: iters) ctx buf =
        some (KNOT_NET_ETIMEOUT,
          { ctx with stream :=
            { ctx.stream with sent := u64add ctx.stream.sent (buf.length + 2) } }, [])) := by
  refine ⟨?_, ?_, ?_, ?_⟩
  · intro ctx i dlen hi hle hlt
    rw [hi]
    simp only [acked_stream_data_offset_cb, beq_self_eq_true, if_pos]
    show u64sub ctx.stream.sent dlen = ctx.stream.sent - dlen
    simp only [u64sub, U64MOD] at *
    omega
  · intro tcp iters ctx buf ctx' tr' hpoll he
    exact send_query_loop_ok_sent_zero tcp _ iters _ _ [] ctx' tr' hpoll he
  · intro tcp iters ctx buf r ctx' tr' he
    obtain ⟨ext, hext, hh⟩ := send_query_loop_trace_ext tcp _ iters _ _ [] r ctx' tr' he
    rcases hh with h | h
    · exact Or.inl (by simp [hext, h])
    · refine Or.inr ?_
      rw [hext]
      simpa using h
  · intro tcp it iters ctx buf htm hne
    unfold quic_send_dns_query
    unfold send_query_loop
    rw [if_neg hne]
    simp only []
    rw [if_pos htm]

/-- Witness for C7: a 3-byte query on the connected context is framed as
[00 03][message] with FIN on stream 0, the ack of all 5 in-flight bytes
returns the counter to zero and the run ends OK with zero in flight;
and the immediate-deadline run shows the counter bumped by len+2 before
the loop. -/
theorem c7_framing_and_inflight_witness :
    ((acked_stream_data_offset_cb ctxSent5 0 5).2).stream.sent = 0
    ∧ ({ ctxConnected with ecn := 2 } : QuicCtx).stream.sent = 0
    ∧ (([⟨0, true, [[0, 3], [9, 9, 9]]⟩] : List WritevCall) = [] ∨
       ([⟨0, true, [[0, 3], [9, 9, 9]]⟩] : List WritevCall).head? =
         some ⟨ctxConnected.stream.id, true, [[0, 3], [9, 9, 9]]⟩)
    ∧ quic_send_dns_query tcpTriv [iterFarC7] ctxConnected [0, 1] =
        some (KNOT_NET_ETIMEOUT,
          { ctxConnected with stream := { ctxConnected.stream with sent := 4 } }, []) := by
  have hrun : quic_send_dns_query tcpTriv [iterAckC7] ctxConnected [9, 9, 9] =
      some (KNOT_EOK, { ctxConnected with ecn := 2 },
        [⟨0, true, [[0, 3], [9, 9, 9]]⟩]) := by decide
  refine ⟨?_, ?_, ?_, ?_⟩
  · exact (c7_framing_and_inflight.1 ctxSent5 0 5 (by decide) (by decide) (by decide)).trans
      (by decide)
  · exact c7_framing_and_inflight.2.1 tcpTriv [iterAckC7] ctxConnected [9, 9, 9] _ _
      (by decide) hrun
  · have hhd := c7_framing_and_inflight.2.2.1 tcpTriv [iterAckC7] ctxConnected [9, 9, 9]
      _ _ _ hrun
    rcases hhd with h | h
    · exact Or.inl h
    · exact Or.inr (h.trans (by decide))
  · exact (c7_framing_and_inflight.2.2.2 tcpTriv iterFarC7 [] ctxConnected [0, 1]
      (by decide) (by decide)).trans (by decide)

end Knot
